import Mathlib

/-!
Verification development for the roucraft voxel engine.

Shallow embedding of the core subsystems:
* coordinate utilities (src/shared/ChunkConstants.ts)
* block type registry (src/shared/BlockTypes.ts)
* terrain generator and world manager (server world code)
* binary world save/load (server world code)
* greedy meshers, synchronous and worker variants
  (src/client/world/ChunkMesher.ts, src/client/world/ChunkMeshWorker.ts)
* worker pool scheduler (src/client/world/WorkerPool.ts)

JavaScript `number` values that are used as integers are modelled as `Int`
(or `Nat` where the source guarantees non-negativity); fractional
arithmetic (noise values, colors, ambient-occlusion factors) is modelled
exactly over `ℚ` instead of IEEE doubles.  `Uint8Array` block grids are
modelled as functions from the flat index to the byte stored there.
-/

/-! ## Coordinate utilities (src/shared/ChunkConstants.ts) -/

def CHUNK_SIZE : Nat := 32

def CHUNK_HEIGHT : Nat := 32

def WORLD_HEIGHT : Nat := 256

def BLOCKS_PER_CHUNK : Nat := CHUNK_SIZE * CHUNK_SIZE * CHUNK_HEIGHT

/-- Flat index into a chunk grid: `x + z*SIZE + y*SIZE*SIZE` (z before y;
y is the slowest-varying axis). -/
def blockIndex (x y z : Int) : Int :=
  x + z * (CHUNK_SIZE : Int) + y * (CHUNK_SIZE : Int) * (CHUNK_SIZE : Int)

/-- Result record of `worldToChunk`. -/
structure ChunkLocal where
  cx : Int
  cy : Int
  cz : Int
  lx : Int
  ly : Int
  lz : Int
  deriving DecidableEq

/-- World coordinate to chunk + local coordinates.  `Math.floor(wx / 32)`
on integer inputs is floor division (`Int.fdiv`); the JavaScript `%`
operator truncates toward zero (`Int.tmod`), and the source wraps it as
`((wx % n) + n) % n` to obtain a non-negative local coordinate. -/
def worldToChunk (wx wy wz : Int) : ChunkLocal :=
  { cx := Int.fdiv wx (CHUNK_SIZE : Int)
    cy := Int.fdiv wy (CHUNK_HEIGHT : Int)
    cz := Int.fdiv wz (CHUNK_SIZE : Int)
    lx := Int.tmod (Int.tmod wx (CHUNK_SIZE : Int) + (CHUNK_SIZE : Int)) (CHUNK_SIZE : Int)
    ly := Int.tmod (Int.tmod wy (CHUNK_HEIGHT : Int) + (CHUNK_HEIGHT : Int)) (CHUNK_HEIGHT : Int)
    lz := Int.tmod (Int.tmod wz (CHUNK_SIZE : Int) + (CHUNK_SIZE : Int)) (CHUNK_SIZE : Int) }

/-! ## Block types (src/shared/BlockTypes.ts) -/

namespace BlockType

def Air : Nat := 0
def Grass : Nat := 1
def Dirt : Nat := 2
def Stone : Nat := 3
def Sand : Nat := 4
def Water : Nat := 5
def Wood : Nat := 6
def Leaves : Nat := 7
def Cobblestone : Nat := 8
def Planks : Nat := 9
def Glass : Nat := 10
def Brick : Nat := 11
def Coal : Nat := 12
def Iron : Nat := 13
def Gold : Nat := 14
def Flower : Nat := 15

end BlockType

/-- Properties of one block type.  Colors are RGB triples in `[0,1]`,
modelled over `ℚ`. -/
structure BlockProperties where
  name : String
  color : ℚ × ℚ × ℚ
  transparent : Bool
  solid : Bool
  colorTop : Option (ℚ × ℚ × ℚ) := none
  colorBottom : Option (ℚ × ℚ × ℚ) := none
  deriving DecidableEq

/-- The fixed block registry: an entry for every code `0..15`, `none`
beyond (the source record has exactly these sixteen keys). -/
def BLOCK_PROPERTIES (b : Nat) : Option BlockProperties :=
  match b with
  | 0 => some { name := "Air", color := (0, 0, 0), transparent := true, solid := false }
  | 1 => some { name := "Grass", color := (0.36, 0.7, 0.2), transparent := false, solid := true,
                colorTop := some (0.36, 0.7, 0.2), colorBottom := some (0.55, 0.38, 0.2) }
  | 2 => some { name := "Dirt", color := (0.55, 0.38, 0.2), transparent := false, solid := true }
  | 3 => some { name := "Stone", color := (0.5, 0.5, 0.5), transparent := false, solid := true }
  | 4 => some { name := "Sand", color := (0.86, 0.82, 0.56), transparent := false, solid := true }
  | 5 => some { name := "Water", color := (0.2, 0.4, 0.8), transparent := true, solid := false }
  | 6 => some { name := "Wood", color := (0.45, 0.3, 0.15), transparent := false, solid := true }
  | 7 => some { name := "Leaves", color := (0.2, 0.55, 0.15), transparent := true, solid := true }
  | 8 => some { name := "Cobblestone", color := (0.4, 0.4, 0.4), transparent := false, solid := true }
  | 9 => some { name := "Planks", color := (0.7, 0.55, 0.3), transparent := false, solid := true }
  | 10 => some { name := "Glass", color := (0.8, 0.9, 0.95), transparent := true, solid := true }
  | 11 => some { name := "Brick", color := (0.6, 0.25, 0.2), transparent := false, solid := true }
  | 12 => some { name := "Coal", color := (0.2, 0.2, 0.2), transparent := false, solid := true }
  | 13 => some { name := "Iron", color := (0.7, 0.6, 0.55), transparent := false, solid := true }
  | 14 => some { name := "Gold", color := (0.9, 0.8, 0.2), transparent := false, solid := true }
  | 15 => some { name := "Flower", color := (0.9, 0.2, 0.3), transparent := true, solid := false }
  | _ => none

/-- Transparency of a block code, `false` for codes with no registry
entry. -/
def blockTransparent (b : Nat) : Bool :=
  (Option.map (fun p => p.transparent) (BLOCK_PROPERTIES b)).getD false

example : blockTransparent BlockType.Water = true := by decide
example : blockTransparent BlockType.Stone = false := by decide

/-- Solidity of a block code: the source reads
`BLOCK_PROPERTIES[blockType]?.solid ?? false`. -/
def isSolid (b : Nat) : Bool :=
  (Option.map (fun p => p.solid) (BLOCK_PROPERTIES b)).getD false

/-! ## Greedy mesher
(src/client/world/ChunkMesher.ts and src/client/world/ChunkMeshWorker.ts)

Both files define identical copies of `getBlock`, `isSolid`,
`getBlockColor`, `vertexAO`, `shouldShowFace`, `FACE_DEFS`, `AXIS_SIZE`
and `AO_CURVE`; they are embedded once here.  The two meshing entry
points differ in exactly one respect — the slice coordinate along the
face-normal axis at which ambient-occlusion neighbors are sampled — so
the shared skeleton `meshCore` is parameterised by that coordinate
(`aoDepth`), and each entry point instantiates it with its own file's
expression. -/

/-- Block grid: flat byte array of length 32768, modelled as a function
from the flat index to the stored byte.  Out-of-range reads of a real
`Uint8Array` yield `undefined`; every consumer in the mesher reaches such
reads only through `isSolid`, and the concrete grids evaluated below
never perform them with a neighbor grid present. -/
def Grid : Type := Int → Nat

/-- Optional face-adjacent neighbor grids (absent when the neighbor chunk
is not loaded). -/
structure ChunkNeighbors where
  px : Option Grid := none
  nx : Option Grid := none
  py : Option Grid := none
  ny : Option Grid := none
  pz : Option Grid := none
  nz : Option Grid := none

/-- Block lookup possibly crossing into a neighbor grid; an absent
neighbor behaves as all-air. -/
def getBlock (data : Grid) (neighbors : ChunkNeighbors) (x y z : Int) : Nat :=
  if 0 ≤ x ∧ x < (CHUNK_SIZE : Int) ∧ 0 ≤ y ∧ y < (CHUNK_HEIGHT : Int) ∧
      0 ≤ z ∧ z < (CHUNK_SIZE : Int) then
    data (blockIndex x y z)
  else if (CHUNK_SIZE : Int) ≤ x ∧ neighbors.px.isSome then
    (neighbors.px.getD (fun _ => 0)) (blockIndex (x - (CHUNK_SIZE : Int)) y z)
  else if x < 0 ∧ neighbors.nx.isSome then
    (neighbors.nx.getD (fun _ => 0)) (blockIndex (x + (CHUNK_SIZE : Int)) y z)
  else if (CHUNK_HEIGHT : Int) ≤ y ∧ neighbors.py.isSome then
    (neighbors.py.getD (fun _ => 0)) (blockIndex x (y - (CHUNK_HEIGHT : Int)) z)
  else if y < 0 ∧ neighbors.ny.isSome then
    (neighbors.ny.getD (fun _ => 0)) (blockIndex x (y + (CHUNK_HEIGHT : Int)) z)
  else if (CHUNK_SIZE : Int) ≤ z ∧ neighbors.pz.isSome then
    (neighbors.pz.getD (fun _ => 0)) (blockIndex x y (z - (CHUNK_SIZE : Int)))
  else if z < 0 ∧ neighbors.nz.isSome then
    (neighbors.nz.getD (fun _ => 0)) (blockIndex x y (z + (CHUNK_SIZE : Int)))
  else
    BlockType.Air

/-- Face color lookup: top faces (`faceIndex = 2`) may use `colorTop`,
bottom faces (`faceIndex = 3`) may use `colorBottom`. -/
def getBlockColor (b faceIndex : Nat) : ℚ × ℚ × ℚ :=
  match BLOCK_PROPERTIES b with
  | none => (0, 0, 0)
  | some props =>
    if faceIndex = 2 then props.colorTop.getD props.color
    else if faceIndex = 3 then props.colorBottom.getD props.color
    else props.color

/-- Ambient-occlusion level of a vertex from its two side neighbors and
its diagonal corner neighbor; both sides occluded forces level 0. -/
def vertexAO (side1 side2 corner : Bool) : Nat :=
  if side1 ∧ side2 then 0
  else 3 - ((if side1 then 1 else 0) + (if side2 then 1 else 0) + (if corner then 1 else 0))

/-- AO brightness curve: level 0 (fully occluded) … 3 (fully lit). -/
def AO_CURVE (level : Nat) : ℚ :=
  match level with
  | 0 => 0.4
  | 1 => 0.6
  | 2 => 0.8
  | _ => 1.0

/-- Whether a face of `blockType` against `neighborType` is visible:
air shows it, and a transparent neighbor of a different type shows it. -/
def shouldShowFace (blockType neighborType : Nat) : Bool :=
  if neighborType = BlockType.Air then true
  else if blockTransparent neighborType ∧ neighborType ≠ blockType then true
  else false

/-- One of the six face directions: `d` is the normal axis (0=x, 1=y,
2=z), `u`/`v` the tangent axes, `sign` the normal direction along `d`,
`faceIdx` the color-lookup index, `normal` the unit normal. -/
structure FaceDef where
  d : Nat
  u : Nat
  v : Nat
  sign : Int
  faceIdx : Nat
  normal : ℚ × ℚ × ℚ

/-- The +X face: slice along x, sweep z (u) and y (v). -/
def facePX : FaceDef := { d := 0, u := 2, v := 1, sign := 1, faceIdx := 0, normal := (1, 0, 0) }

/-- The -X face. -/
def faceNX : FaceDef := { d := 0, u := 2, v := 1, sign := -1, faceIdx := 1, normal := (-1, 0, 0) }

/-- The +Y face: slice along y, sweep x (u) and z (v). -/
def facePY : FaceDef := { d := 1, u := 0, v := 2, sign := 1, faceIdx := 2, normal := (0, 1, 0) }

/-- The -Y face. -/
def faceNY : FaceDef := { d := 1, u := 0, v := 2, sign := -1, faceIdx := 3, normal := (0, -1, 0) }

/-- The +Z face: slice along z, sweep x (u) and y (v). -/
def facePZ : FaceDef := { d := 2, u := 0, v := 1, sign := 1, faceIdx := 4, normal := (0, 0, 1) }

/-- The -Z face. -/
def faceNZ : FaceDef := { d := 2, u := 0, v := 1, sign := -1, faceIdx := 5, normal := (0, 0, -1) }

def FACE_DEFS : List FaceDef :=
  [facePX, faceNX, facePY, faceNY, facePZ, faceNZ]

/-- Axis sizes: x = CHUNK_SIZE, y = CHUNK_HEIGHT, z = CHUNK_SIZE. -/
def AXIS_SIZE (a : Nat) : Nat :=
  match a with
  | 0 => CHUNK_SIZE
  | 1 => CHUNK_HEIGHT
  | _ => CHUNK_SIZE

/-- Component of an `[x, y, z]` coordinate array by axis index. -/
def axGet (p : Int × Int × Int) (a : Nat) : Int :=
  match a with
  | 0 => p.1
  | 1 => p.2.1
  | _ => p.2.2

/-- Functional update of an `[x, y, z]` coordinate array by axis index. -/
def axSet (p : Int × Int × Int) (a : Nat) (w : Int) : Int × Int × Int :=
  match a with
  | 0 => (w, p.2.1, p.2.2)
  | 1 => (p.1, w, p.2.2)
  | _ => (p.1, p.2.1, w)

/-- Mutable mesh-building state: the eight growing output arrays plus the
two vertex counters. -/
structure MeshAcc where
  positions : List ℚ
  normals : List ℚ
  colors : List ℚ
  indices : List Nat
  vertexCount : Nat
  waterPositions : List ℚ
  waterNormals : List ℚ
  waterColors : List ℚ
  waterIndices : List Nat
  waterVertexCount : Nat

def emptyMeshAcc : MeshAcc :=
  { positions := [], normals := [], colors := [], indices := [], vertexCount := 0,
    waterPositions := [], waterNormals := [], waterColors := [], waterIndices := [],
    waterVertexCount := 0 }

/-- Final mesh result (the typed arrays handed to the renderer). -/
structure MeshData where
  positions : List ℚ
  normals : List ℚ
  colors : List ℚ
  indices : List Nat
  waterPositions : List ℚ
  waterNormals : List ℚ
  waterColors : List ℚ
  waterIndices : List Nat
  deriving DecidableEq

/-- Functional store into a mask array cell. -/
def arrSet (m : Nat → Nat) (i v : Nat) : Nat → Nat :=
  fun j => if j = i then v else m j

/-- Functional store into the visited array. -/
def visSet (vis : Nat → Bool) (i : Nat) : Nat → Bool :=
  fun j => if j = i then true else vis j

/-- Mask entry for one cell of a slice: the emitting block type, or 0 when
no face is emitted there. -/
def maskCellVal (data : Grid) (neighbors : ChunkNeighbors) (face : FaceDef)
    (d u v : Nat) : Nat :=
  let pos := axSet (axSet (axSet ((0 : Int), (0 : Int), (0 : Int)) face.d (d : Int)) face.u (u : Int)) face.v (v : Int)
  let blockType := data (blockIndex pos.1 pos.2.1 pos.2.2)
  if blockType = BlockType.Air then 0
  else
    let nPos := axSet pos face.d (axGet pos face.d + face.sign)
    let neighborType := getBlock data neighbors nPos.1 nPos.2.1 nPos.2.2
    if shouldShowFace blockType neighborType then blockType else 0

/-- The slice mask (an `Int32Array` of `uSize * vSize` cells in the
source), modelled as a function from the cell index to the stored
value. -/
def buildMask (data : Grid) (neighbors : ChunkNeighbors) (face : FaceDef)
    (d : Nat) : Nat → Nat :=
  let uSize := AXIS_SIZE face.u
  let vSize := AXIS_SIZE face.v
  (List.range vSize).foldl (fun m v =>
    (List.range uSize).foldl (fun m u =>
      arrSet m (u + v * uSize) (maskCellVal data neighbors face d u v)) m)
    (fun _ => 0)

/-- Quad width: extend along `u` while the run matches the block type and
is unvisited (the source's first `while` loop; the fold is fuel-bounded
by the slice width, and once the condition fails the counter never moves
again, so this equals the source's `while`). -/
def extendW (m : Nat → Nat) (vis : Nat → Bool) (blockType u v uSize : Nat) : Nat :=
  (List.range uSize).foldl (fun w _ =>
    if u + w < uSize ∧ m ((u + w) + v * uSize) = blockType ∧
        ¬ vis ((u + w) + v * uSize) then w + 1 else w) 1

/-- Whether a whole candidate row matches during height extension (the
source's inner `for` loop with early `break`). -/
def rowMatches (m : Nat → Nat) (vis : Nat → Bool) (blockType u v uSize h : Nat)
    (w : Nat) : Bool :=
  (List.range w).foldl (fun ok k =>
    ok && (m ((u + k) + (v + h) * uSize) == blockType) &&
      !(vis ((u + k) + (v + h) * uSize))) true

/-- Quad height: extend along `v` while every cell of the candidate row
matches (the source's second `while` loop, fuel-bounded like `extendW`). -/
def extendH (m : Nat → Nat) (vis : Nat → Bool) (blockType u v uSize vSize w : Nat) : Nat :=
  (List.range vSize).foldl (fun h _ =>
    if v + h < vSize ∧ rowMatches m vis blockType u v uSize h w then h + 1 else h) 1

/-- Mark a `w × h` rectangle of cells as visited. -/
def markVisited (vis : Nat → Bool) (u v uSize w h : Nat) : Nat → Bool :=
  (List.range h).foldl (fun vis dv =>
    (List.range w).foldl (fun vis du =>
      visSet vis ((u + du) + (v + dv) * uSize)) vis) vis

/-- AO level of one quad corner: sample the two side neighbors and the
diagonal corner neighbor in the slice selected by `aoDepth` (this is the
single point where the synchronous mesher and the worker mesher differ). -/
def aoCorner (aoDepth : Int → Nat → Int) (data : Grid) (neighbors : ChunkNeighbors)
    (face : FaceDef) (d : Nat) (cu cv : Nat) (ou ov : Int) : Nat :=
  let dd := aoDepth face.sign d
  let s1Pos := axSet (axSet (axSet ((0 : Int), (0 : Int), (0 : Int)) face.d dd) face.u ((cu : Int) + ou)) face.v (cv : Int)
  let s1 := isSolid (getBlock data neighbors s1Pos.1 s1Pos.2.1 s1Pos.2.2)
  let s2Pos := axSet (axSet (axSet ((0 : Int), (0 : Int), (0 : Int)) face.d dd) face.u (cu : Int)) face.v ((cv : Int) + ov)
  let s2 := isSolid (getBlock data neighbors s2Pos.1 s2Pos.2.1 s2Pos.2.2)
  let cPos := axSet (axSet (axSet ((0 : Int), (0 : Int), (0 : Int)) face.d dd) face.u ((cu : Int) + ou)) face.v ((cv : Int) + ov)
  let cr := isSolid (getBlock data neighbors cPos.1 cPos.2.1 cPos.2.2)
  vertexAO s1 s2 cr

/-- Position components of one emitted vertex (y carries the water
top-face offset, 0 for opaque geometry). -/
def vertPush (p : Int × Int × Int) (yOffset : ℚ) : List ℚ :=
  [(p.1 : ℚ), (p.2.1 : ℚ) + yOffset, (p.2.2 : ℚ)]

/-- Normal components of one emitted vertex. -/
def normPush (n : ℚ × ℚ × ℚ) : List ℚ :=
  [n.1, n.2.1, n.2.2]

/-- AO-modulated color components of one emitted vertex. -/
def colorPush (c : ℚ × ℚ × ℚ) (ao : Nat) : List ℚ :=
  [c.1 * AO_CURVE ao, c.2.1 * AO_CURVE ao, c.2.2 * AO_CURVE ao]

/-- Two triangles for a quad, flipping the diagonal when the AO sums ask
for it. -/
def quadIndices (base ao0 ao1 ao2 ao3 : Nat) : List Nat :=
  if ao0 + ao2 > ao1 + ao3 then
    [base + 1, base + 2, base + 3, base + 1, base + 3, base]
  else
    [base, base + 1, base + 2, base, base + 2, base + 3]

/-- Emit one merged quad into the accumulator (water geometry goes to its
own buffers, the top water face is lowered by 0.1). -/
def emitQuad (aoDepth : Int → Nat → Int) (data : Grid) (neighbors : ChunkNeighbors)
    (face : FaceDef) (d u v w h blockType : Nat) (acc : MeshAcc) : MeshAcc :=
  let basePos := axSet (axSet (axSet ((0 : Int), (0 : Int), (0 : Int))
    face.d ((d : Int) + (if 0 < face.sign then 1 else 0))) face.u (u : Int)) face.v (v : Int)
  let uDir := axSet ((0 : Int), (0 : Int), (0 : Int)) face.u 1
  let vDir := axSet ((0 : Int), (0 : Int), (0 : Int)) face.v 1
  let v0 := basePos
  let v1 := (basePos.1 + w * uDir.1, basePos.2.1 + w * uDir.2.1, basePos.2.2 + w * uDir.2.2)
  let v2 := (basePos.1 + w * uDir.1 + h * vDir.1, basePos.2.1 + w * uDir.2.1 + h * vDir.2.1,
             basePos.2.2 + w * uDir.2.2 + h * vDir.2.2)
  let v3 := (basePos.1 + h * vDir.1, basePos.2.1 + h * vDir.2.1, basePos.2.2 + h * vDir.2.2)
  let ao0 := aoCorner aoDepth data neighbors face d u v (-1) (-1)
  let ao1 := aoCorner aoDepth data neighbors face d (u + w) v 0 (-1)
  let ao2 := aoCorner aoDepth data neighbors face d (u + w) (v + h) 0 0
  let ao3 := aoCorner aoDepth data neighbors face d u (v + h) (-1) 0
  let color := getBlockColor blockType face.faceIdx
  if blockType = BlockType.Water then
    let yOffset : ℚ := if face.faceIdx = 2 then -0.1 else 0
    { acc with
      waterPositions := acc.waterPositions ++ vertPush v0 yOffset ++ vertPush v1 yOffset ++
        vertPush v2 yOffset ++ vertPush v3 yOffset
      waterNormals := acc.waterNormals ++ normPush face.normal ++ normPush face.normal ++
        normPush face.normal ++ normPush face.normal
      waterColors := acc.waterColors ++ colorPush color ao0 ++ colorPush color ao1 ++
        colorPush color ao2 ++ colorPush color ao3
      waterIndices := acc.waterIndices ++ quadIndices acc.waterVertexCount ao0 ao1 ao2 ao3
      waterVertexCount := acc.waterVertexCount + 4 }
  else
    { acc with
      positions := acc.positions ++ vertPush v0 0 ++ vertPush v1 0 ++ vertPush v2 0 ++
        vertPush v3 0
      normals := acc.normals ++ normPush face.normal ++ normPush face.normal ++
        normPush face.normal ++ normPush face.normal
      colors := acc.colors ++ colorPush color ao0 ++ colorPush color ao1 ++
        colorPush color ao2 ++ colorPush color ao3
      indices := acc.indices ++ quadIndices acc.vertexCount ao0 ao1 ao2 ao3
      vertexCount := acc.vertexCount + 4 }

/-- One greedy-scan step at cell `(u, v)` of the slice: skip visited or
empty cells, otherwise grow the maximal rectangle, mark it visited and
emit the quad. -/
def scanCell (aoDepth : Int → Nat → Int) (data : Grid) (neighbors : ChunkNeighbors)
    (face : FaceDef) (d : Nat) (m : Nat → Nat) (st : (Nat → Bool) × MeshAcc)
    (u v : Nat) : (Nat → Bool) × MeshAcc :=
  let uSize := AXIS_SIZE face.u
  let idx := u + v * uSize
  if st.1 idx = true ∨ m idx = 0 then st
  else
    let blockType := m idx
    let w := extendW m st.1 blockType u v uSize
    let h := extendH m st.1 blockType u v uSize (AXIS_SIZE face.v) w
    (markVisited st.1 u v uSize w h,
      emitQuad aoDepth data neighbors face d u v w h blockType st.2)

/-- Process one slice: build its mask, then greedy-merge it with a fresh
visited set, scanning the cells in row-major order. -/
def sliceStep (aoDepth : Int → Nat → Int) (data : Grid) (neighbors : ChunkNeighbors)
    (face : FaceDef) (d : Nat) (acc : MeshAcc) : MeshAcc :=
  let uSize := AXIS_SIZE face.u
  let vSize := AXIS_SIZE face.v
  let m := buildMask data neighbors face d
  ((List.range vSize).foldl (fun st v =>
    (List.range uSize).foldl (fun st u =>
      scanCell aoDepth data neighbors face d m st u v) st)
    ((fun _ => false), acc)).2

/-- Shared mesher skeleton: sweep all slices of all six face directions.
`aoDepth` selects the slice from which AO neighbors are sampled — the one
point where ChunkMesher.ts and ChunkMeshWorker.ts differ. -/
def meshAccOf (aoDepth : Int → Nat → Int) (chunkData : Grid)
    (neighbors : ChunkNeighbors) : MeshAcc :=
  FACE_DEFS.foldl (fun acc face =>
    (List.range (AXIS_SIZE face.d)).foldl
      (fun acc d => sliceStep aoDepth chunkData neighbors face d acc) acc) emptyMeshAcc

/-- Package the swept accumulator: `null` when nothing was emitted,
otherwise the eight buffers. -/
def meshCore (aoDepth : Int → Nat → Int) (chunkData : Grid)
    (neighbors : ChunkNeighbors) : Option MeshData :=
  let acc := meshAccOf aoDepth chunkData neighbors
  if acc.vertexCount = 0 ∧ acc.waterVertexCount = 0 then none
  else some
    { positions := acc.positions, normals := acc.normals, colors := acc.colors,
      indices := acc.indices, waterPositions := acc.waterPositions,
      waterNormals := acc.waterNormals, waterColors := acc.waterColors,
      waterIndices := acc.waterIndices }

/-- Synchronous mesher (ChunkMesher.ts): AO neighbors are sampled in the
emitting block's own slice `d`.  The chunk-coordinate parameters are part
of the signature but unused, exactly as in the source. -/
def meshChunk (chunkData : Grid) (neighbors : ChunkNeighbors)
    (_cx _cy _cz : Int) : Option MeshData :=
  meshCore (fun _ d => (d : Int)) chunkData neighbors

/-- Worker mesher (ChunkMeshWorker.ts): AO neighbors are sampled at
`d + (sign > 0 ? 0 : -1) + sign` along the normal axis. -/
def meshChunkData (chunkData : Grid) (neighbors : ChunkNeighbors) : Option MeshData :=
  meshCore (fun sign d => (d : Int) + (if 0 < sign then 0 else -1) + sign)
    chunkData neighbors

/-! ## Terrain generator (server world code: TerrainGenerator.ts) -/

def BASE_HEIGHT : Int := 64

def AMPLITUDE : ℚ := 30

def WATER_LEVEL : Int := 60

def CAVE_THRESHOLD : ℚ := 0.6

def CAVE_MAX_Y : Int := 50

/-- Noise octaves: (frequency, amplitude) pairs. -/
def OCTAVES : List (ℚ × ℚ) :=
  [(0.01, 1), (0.02, 0.5), (0.04, 0.25), (0.08, 0.125)]

/-- Functional store into a block grid. -/
def gridSet (g : Grid) (i : Int) (v : Nat) : Grid :=
  fun j => if j = i then v else g j

/-- Modelled from the spec: the source seeds the third-party `alea` PRNG
with the world seed and derives its noise functions (`createNoise2D`,
`createNoise3D` from the `simplex-noise` package) from that generator's
stream; both libraries live outside this repository.  The specification
requires only that each noise function is a deterministic function of
the seed alone (\"no process-wide mutable entropy\"), which this
integer-mixing model satisfies, producing values in `[-1, 1]`. -/
def noiseMix (seed : Int) (stream : Nat) (a b c : ℚ) : ℚ :=
  let k : Int := seed + stream + a.num + 31 * (a.den : Int) + 57 * b.num +
    89 * (b.den : Int) + 101 * c.num + 13 * (c.den : Int)
  (((k * 2654435761 + 1013904223) % 2001) - 1000) / 1000

/-- Modelled from the spec: a 2D noise function derived from the seeded
PRNG stream (`stream` stands for the position in the `alea` sequence at
which this noise instance was created). -/
def mkNoise2D (seed : Int) (stream : Nat) : ℚ → ℚ → ℚ :=
  fun x y => noiseMix seed stream x y 0

/-- Modelled from the spec: a 3D noise function derived from the seeded
PRNG stream. -/
def mkNoise3D (seed : Int) (stream : Nat) : ℚ → ℚ → ℚ → ℚ :=
  fun x y z => noiseMix seed stream x y z

/-- Terrain generator instance: the seed plus the three noise functions
created in the constructor. -/
structure TerrainGenerator where
  seed : Int
  noise2D : ℚ → ℚ → ℚ
  noise3D : ℚ → ℚ → ℚ → ℚ
  treeNoise : ℚ → ℚ → ℚ

/-- The `TerrainGenerator` constructor: seeds the PRNG with `seed` and
derives the three noise functions from it, in order. -/
def mkTerrainGenerator (seed : Int) : TerrainGenerator :=
  { seed := seed
    noise2D := mkNoise2D seed 0
    noise3D := mkNoise3D seed 1
    treeNoise := mkNoise2D seed 2 }

/-- Sum the four noise octaves, normalise by total amplitude, scale and
offset, floor to an integer surface height. -/
def sampleHeight (noise2D : ℚ → ℚ → ℚ) (wx wz : Int) : Int :=
  let s := OCTAVES.foldl (fun (s : ℚ × ℚ) fa =>
    (s.1 + noise2D ((wx : ℚ) * fa.1) ((wz : ℚ) * fa.1) * fa.2, s.2 + fa.2)) (0, 0)
  Int.floor ((BASE_HEIGHT : ℚ) + s.1 / s.2 * AMPLITUDE)

/-- JavaScript `ToInt32` on an exact integer. -/
def toInt32 (n : Int) : Int :=
  (n + 2147483648) % 4294967296 - 2147483648

/-- JavaScript `ToUint32` on an exact integer, as a natural number. -/
def toUint32 (n : Int) : Nat :=
  (n % 4294967296).toNat

/-- JavaScript 32-bit `^` on exact integers. -/
def jsXor (a b : Int) : Int :=
  toInt32 ((toUint32 a ^^^ toUint32 b : Nat) : Int)

/-- JavaScript unsigned right shift `>>> k` on an exact integer. -/
def jsShrU (a : Int) (k : Nat) : Int :=
  ((toUint32 a >>> k : Nat) : Int)

/-- Deterministic per-block hash for ores, flowers and trees, yielding a
rational in `[0, 1]`.  The JavaScript source mixes 32-bit integers with
`^`, `>>>`, `|0`; the one modelling approximation is that intermediate
products are kept exact here, whereas an IEEE double rounds products
beyond 2^53 before the next 32-bit wrap. -/
def blockHash (x y z seed : Int) : ℚ :=
  let h := seed
  let h := toInt32 (jsXor h (x * 374761393) + 1376312589)
  let h := toInt32 (jsXor h (y * 668265263) + 2144716967)
  let h := toInt32 (jsXor h (z * 1274126177) + 1879968187)
  let h := jsXor h (jsShrU h 13) * 1274126177
  let h := jsXor h (jsShrU h 16)
  ((toUint32 h &&& 0x7fffffff : Nat) : ℚ) / (0x7fffffff : ℚ)

/-- Surface height of the column `(x, z)` of chunk `(cx, _, cz)` (the
source materialises these in an `Int32Array` height map; the values are
identical). -/
def heightMapAt (g : TerrainGenerator) (cx cz : Int) (x z : Nat) : Int :=
  sampleHeight g.noise2D (cx * (CHUNK_SIZE : Int) + x) (cz * (CHUNK_SIZE : Int) + z)

/-- Pass 1 block decision for one cell: layered terrain, then cave
carving, then ore replacement. -/
def pass1Block (g : TerrainGenerator) (wx wy wz height : Int) : Nat :=
  let block :=
    if wy = height then (if height ≤ 62 then BlockType.Sand else BlockType.Grass)
    else if height - 3 ≤ wy ∧ wy < height then BlockType.Dirt
    else if wy < height - 3 then BlockType.Stone
    else if wy ≤ WATER_LEVEL ∧ height < wy then BlockType.Water
    else BlockType.Air
  let block :=
    if block = BlockType.Stone ∧ wy < CAVE_MAX_Y ∧ 1 < wy then
      (if CAVE_THRESHOLD < g.noise3D ((wx : ℚ) * 0.05) ((wy : ℚ) * 0.05) ((wz : ℚ) * 0.05)
        then BlockType.Air else block)
    else block
  if block = BlockType.Stone then
    let rnd := blockHash wx wy wz g.seed
    if wy < 20 ∧ rnd < 0.003 then BlockType.Gold
    else if wy < 40 ∧ rnd < 0.008 then BlockType.Iron
    else if wy < 60 ∧ rnd < 0.015 then BlockType.Coal
    else block
  else block

/-- Pass 2: maybe place a flower one block above a grass surface. -/
def flowerPass (g : TerrainGenerator) (cx cy cz : Int) (x z : Nat) (data : Grid) : Grid :=
  let wx := cx * (CHUNK_SIZE : Int) + x
  let wz := cz * (CHUNK_SIZE : Int) + z
  let chunkWorldY := cy * (CHUNK_HEIGHT : Int)
  let height := heightMapAt g cx cz x z
  let flowerY := height + 1
  let ly := flowerY - chunkWorldY
  if 0 ≤ ly ∧ ly < (CHUNK_HEIGHT : Int) ∧ WATER_LEVEL < height then
    let surfaceLy := height - chunkWorldY
    if 0 ≤ surfaceLy ∧ surfaceLy < (CHUNK_HEIGHT : Int) then
      if data (blockIndex (x : Int) surfaceLy (z : Int)) = BlockType.Grass then
        (if blockHash wx flowerY wz (g.seed + 7) < 0.02 then
          gridSet data (blockIndex (x : Int) ly (z : Int)) BlockType.Flower
        else data)
      else data
    else data
  else data

/-- Pass 3: maybe grow a tree on a grass column (trunk of wood, spherical
leaf canopy; the source compares `Math.sqrt(dx²+dy²+dz²) > radius + 0.5`,
stated here equivalently on squares). -/
def treePass (g : TerrainGenerator) (cx cy cz : Int) (x z : Nat) (data : Grid) : Grid :=
  let wx := cx * (CHUNK_SIZE : Int) + x
  let wz := cz * (CHUNK_SIZE : Int) + z
  let chunkWorldY := cy * (CHUNK_HEIGHT : Int)
  let height := heightMapAt g cx cz x z
  if height ≤ WATER_LEVEL then data
  else
    let surfaceLy := height - chunkWorldY
    if surfaceLy < 0 ∨ (CHUNK_HEIGHT : Int) ≤ surfaceLy then data
    else if data (blockIndex (x : Int) surfaceLy (z : Int)) ≠ BlockType.Grass then data
    else
      let treeRnd := blockHash wx 0 wz (g.seed + 42)
      if 0.016 < treeRnd then data
      else if x < 2 ∨ CHUNK_SIZE - 2 ≤ x ∨ z < 2 ∨ CHUNK_SIZE - 2 ≤ z then data
      else
        let flowerLy := height + 1 - chunkWorldY
        let data :=
          if 0 ≤ flowerLy ∧ flowerLy < (CHUNK_HEIGHT : Int) ∧
              data (blockIndex (x : Int) flowerLy (z : Int)) = BlockType.Flower then
            gridSet data (blockIndex (x : Int) flowerLy (z : Int)) BlockType.Air
          else data
        let trunkHeight : Int := 4 + Int.floor (treeRnd * 1000) % 3
        let data := (List.range trunkHeight.toNat).foldl (fun data k =>
          let ty : Int := (k : Int) + 1
          let ly := height + ty - chunkWorldY
          if 0 ≤ ly ∧ ly < (CHUNK_HEIGHT : Int) then
            gridSet data (blockIndex (x : Int) ly (z : Int)) BlockType.Wood
          else data) data
        let leafCenterY := height + trunkHeight
        ([-2, -1, 0, 1, 2] : List Int).foldl (fun data dx =>
          ([-2, -1, 0, 1, 2] : List Int).foldl (fun data dz =>
            ([-1, 0, 1, 2] : List Int).foldl (fun data dy =>
              if 25 < 4 * (dx * dx + dy * dy + dz * dz) then data
              else
                let lx := (x : Int) + dx
                let lz := (z : Int) + dz
                let ly := leafCenterY + dy - chunkWorldY
                if lx < 0 ∨ (CHUNK_SIZE : Int) ≤ lx ∨ lz < 0 ∨ (CHUNK_SIZE : Int) ≤ lz then data
                else if ly < 0 ∨ (CHUNK_HEIGHT : Int) ≤ ly then data
                else if data (blockIndex lx ly lz) = BlockType.Air then
                  gridSet data (blockIndex lx ly lz) BlockType.Leaves
                else data) data) data) data

/-- Generate the block grid of chunk `(cx, cy, cz)`: pass 1 fills terrain,
caves and ores per cell (writing only non-air blocks into the zeroed
array), pass 2 places flowers, pass 3 places trees. -/
def TerrainGenerator.generateChunk (g : TerrainGenerator) (cx cy cz : Int) : Grid :=
  let chunkWorldY := cy * (CHUNK_HEIGHT : Int)
  let data : Grid := fun _ => 0
  let data := (List.range CHUNK_SIZE).foldl (fun data (x : Nat) =>
    (List.range CHUNK_SIZE).foldl (fun data (z : Nat) =>
      let wx := cx * (CHUNK_SIZE : Int) + (x : Int)
      let wz := cz * (CHUNK_SIZE : Int) + (z : Int)
      let height := heightMapAt g cx cz x z
      (List.range CHUNK_HEIGHT).foldl (fun data (y : Nat) =>
        let wy := chunkWorldY + y
        let block := pass1Block g wx wy wz height
        if block ≠ BlockType.Air then
          gridSet data (blockIndex (x : Int) (y : Int) (z : Int)) block
        else data) data) data) data
  let data := (List.range CHUNK_SIZE).foldl (fun data x =>
    (List.range CHUNK_SIZE).foldl (fun data z =>
      flowerPass g cx cy cz x z data) data) data
  (List.range CHUNK_SIZE).foldl (fun data x =>
    (List.range CHUNK_SIZE).foldl (fun data z =>
      treePass g cx cy cz x z data) data) data

/-- Standalone height query (spawn placement): builds a fresh noise
instance from the same seed and samples step 1 alone. -/
def getHeightAt (wx wz seed : Int) : Int :=
  sampleHeight (mkNoise2D seed 0) wx wz

/-! ## World manager (server world code: WorldManager.ts)

The source keys `modifiedChunks` by the string `chunkKey(cx,cy,cz) =
"cx,cy,cz"`; over integer coordinates that string is in bijection with
the coordinate triple, so the map is modelled as an insertion-ordered
association list keyed by the triple. -/

/-- Lookup in the modified-chunks map. -/
def mapGet (m : List ((Int × Int × Int) × Grid)) (k : Int × Int × Int) : Option Grid :=
  match m with
  | [] => none
  | (k2, g) :: rest => if k2 = k then some g else mapGet rest k

/-- `Map.set`: replace the entry in place if the key exists, else append
(JavaScript `Map` preserves insertion order). -/
def mapSet (m : List ((Int × Int × Int) × Grid)) (k : Int × Int × Int) (g : Grid) :
    List ((Int × Int × Int) × Grid) :=
  match m with
  | [] => [(k, g)]
  | (k2, g2) :: rest => if k2 = k then (k, g) :: rest else (k2, g2) :: mapSet rest k g

/-- World manager state: the seed, its terrain generator, and the
copy-on-write map of modified chunks. -/
structure WorldManager where
  seed : Int
  terrainGenerator : TerrainGenerator
  modifiedChunks : List ((Int × Int × Int) × Grid)

/-- The `WorldManager` constructor. -/
def mkWorldManager (seed : Int) : WorldManager :=
  { seed := seed, terrainGenerator := mkTerrainGenerator seed, modifiedChunks := [] }

/-- Return the modified entry if present, else generate the baseline
freshly (the generator output is not cached). -/
def WorldManager.getChunk (w : WorldManager) (cx cy cz : Int) : Grid :=
  match mapGet w.modifiedChunks (cx, cy, cz) with
  | some modified => modified
  | none => w.terrainGenerator.generateChunk cx cy cz

/-- Read one block; `Air` immediately for out-of-range `y`. -/
def WorldManager.getBlock (w : WorldManager) (x y z : Int) : Nat :=
  if y < 0 ∨ (WORLD_HEIGHT : Int) ≤ y then BlockType.Air
  else
    let c := worldToChunk x y z
    (w.getChunk c.cx c.cy c.cz) (blockIndex c.lx c.ly c.lz)

/-- Write one block.  Fails (returning `false` with the state unchanged)
for out-of-range `y` or a type code outside `[0, 15]`; on the first edit
of a chunk the generator's baseline output is cloned into a new owned
array before the write (copy-on-write). -/
def WorldManager.setBlock (w : WorldManager) (x y z : Int) (type : Int) :
    Bool × WorldManager :=
  if y < 0 ∨ (WORLD_HEIGHT : Int) ≤ y then (false, w)
  else if type < 0 ∨ (BlockType.Flower : Int) < type then (false, w)
  else
    let c := worldToChunk x y z
    let key := (c.cx, c.cy, c.cz)
    let chunk :=
      match mapGet w.modifiedChunks key with
      | some chunk => chunk
      | none =>
        let generated := w.terrainGenerator.generateChunk c.cx c.cy c.cz
        -- `new Uint8Array(generated)`: an owned copy of the baseline
        fun i => generated i
    let written := gridSet chunk (blockIndex c.lx c.ly c.lz) type.toNat
    (true, { w with modifiedChunks := mapSet w.modifiedChunks key written })

/-- Number of copy-on-write materialised chunks. -/
def WorldManager.getModifiedChunkCount (w : WorldManager) : Nat :=
  w.modifiedChunks.length

/-! ## Binary world save (server world code: WorldSave.ts)

`saveWorld` is modelled as producing the byte sequence written to
`world.bin` (directory handling and the physical write are filesystem
effects outside the data format); `loadWorld` consumes such a byte
sequence, returning `none` where the source returns `null` (missing
file, version mismatch, or a read that throws).  Grids appear here as
explicit byte lists, the serialisation-level view of the 32768-byte
arrays. -/

def SAVE_VERSION : Int := 1

/-- `Buffer.writeInt32LE`: four little-endian bytes of the 32-bit two's
complement representation. -/
def writeInt32 (v : Int) : List Nat :=
  let u := (v % 4294967296).toNat
  [u % 256, u / 256 % 256, u / 65536 % 256, u / 16777216 % 256]

/-- `Buffer.readInt32LE`: recombine four little-endian bytes into a
signed 32-bit value; `none` models the out-of-range read throwing (the
caller catches it and returns `null`). -/
def readInt32 (bytes : List Nat) : Option (Int × List Nat) :=
  match bytes with
  | b0 :: b1 :: b2 :: b3 :: rest =>
    let u : Nat := b0 + 256 * b1 + 65536 * b2 + 16777216 * b3
    some (if u < 2147483648 then (u : Int) else (u : Int) - 4294967296, rest)
  | _ => none

/-- Serialise a world: header (version, seed, chunk count) followed by
one record per modified chunk (cx, cy, cz, 32768 data bytes), in map
insertion order. -/
def saveWorld (seed : Int) (modifiedChunks : List ((Int × Int × Int) × List Nat)) :
    List Nat :=
  writeInt32 SAVE_VERSION ++ writeInt32 seed ++ writeInt32 (modifiedChunks.length : Int) ++
    (modifiedChunks.map (fun e =>
      writeInt32 e.1.1 ++ writeInt32 e.1.2.1 ++ writeInt32 e.1.2.2 ++ e.2)).flatten

/-- Read `count` chunk records.  Data bytes are plain indexed reads (a
read past the end of a real `Buffer` yields `undefined`, which a
`Uint8Array` stores as 0 — hence `getD _ 0`). -/
def readChunkRecords (count : Nat) (bytes : List Nat) :
    Option (List ((Int × Int × Int) × List Nat)) :=
  match count with
  | 0 => some []
  | n + 1 =>
    match readInt32 bytes with
    | none => none
    | some (cx, r1) =>
      match readInt32 r1 with
      | none => none
      | some (cy, r2) =>
        match readInt32 r2 with
        | none => none
        | some (cz, r3) =>
          let data := (List.range BLOCKS_PER_CHUNK).map (fun j => r3.getD j 0)
          let rest := r3.drop BLOCKS_PER_CHUNK
          match readChunkRecords n rest with
          | none => none
          | some tail => some (((cx, cy, cz), data) :: tail)

/-- Deserialise a world file: `none` on version mismatch or a failed
header read, else the seed and the recovered modified-chunk map. -/
def loadWorld (bytes : List Nat) : Option (Int × List ((Int × Int × Int) × List Nat)) :=
  match readInt32 bytes with
  | none => none
  | some (version, r1) =>
    if version ≠ SAVE_VERSION then none
    else
      match readInt32 r1 with
      | none => none
      | some (seed, r2) =>
        match readInt32 r2 with
        | none => none
        | some (chunkCount, r3) =>
          match readChunkRecords chunkCount.toNat r3 with
          | none => none
          | some chunks => some (seed, chunks)

/-! ## Worker pool scheduler (src/client/world/WorkerPool.ts)

The pool is modelled as a state machine over the fields of the source
class.  Job payloads (grids, neighbor grids, chunk coordinates) do not
influence scheduling and are elided from the job record; per-job promise
settlement is tracked explicitly (`promises`), and `dispatched` logs the
`(id, priority)` of every job in the order it is handed to a worker.
Each worker entry additionally records which job it currently holds
(the source keeps that association in the message payload instead). -/

/-- Settlement state of one job's promise. -/
inductive PromiseState where
  | pending
  | resolved
  | rejected
  deriving DecidableEq

/-- A queued meshing job (scheduling-relevant fields). -/
structure WPJob where
  id : Nat
  priority : Int
  deriving DecidableEq

/-- One pool worker. -/
structure WorkerEntry where
  busy : Bool
  current : Option Nat
  deriving DecidableEq

/-- Pool state. -/
structure WorkerPool where
  workers : List WorkerEntry
  queue : List WPJob
  nextId : Nat
  pendingResolves : List Nat
  promises : List (Nat × PromiseState)
  dispatched : List (Nat × Int)
  deriving DecidableEq

/-- Construct a pool with `n` idle workers. -/
def initPool (n : Nat) : WorkerPool :=
  { workers := List.replicate n { busy := false, current := none }
    queue := [], nextId := 0, pendingResolves := [], promises := [], dispatched := [] }

/-- Insert a job in front of the first strictly-lower-priority entry
(higher priority first; equal priorities keep submission order). -/
def insertJob (job : WPJob) (queue : List WPJob) : List WPJob :=
  match queue with
  | [] => [job]
  | j :: rest => if j.priority < job.priority then job :: j :: rest else j :: insertJob job rest

/-- Update one promise's settlement state. -/
def setPromise (ps : List (Nat × PromiseState)) (id : Nat) (s : PromiseState) :
    List (Nat × PromiseState) :=
  match ps with
  | [] => []
  | (i, old) :: rest => if i = id then (i, s) :: rest else (i, old) :: setPromise rest id s

/-- The dispatch loop: walk the workers in order and hand the head of the
queue to every idle worker while jobs remain, registering the job's
callbacks in `pendingResolves`. -/
def dispatch (p : WorkerPool) : WorkerPool :=
  let st := p.workers.foldl
    (fun (st : List WorkerEntry × List WPJob × List Nat × List (Nat × Int)) entry =>
      if entry.busy then (st.1 ++ [entry], st.2.1, st.2.2.1, st.2.2.2)
      else
        match st.2.1 with
        | [] => (st.1 ++ [entry], st.2.1, st.2.2.1, st.2.2.2)
        | job :: restQueue =>
          (st.1 ++ [{ busy := true, current := some job.id }], restQueue,
            st.2.2.1 ++ [job.id], st.2.2.2 ++ [(job.id, job.priority)]))
    ([], p.queue, p.pendingResolves, p.dispatched)
  { p with
    workers := st.1
    queue := st.2.1
    pendingResolves := st.2.2.1
    dispatched := st.2.2.2 }

/-- `WorkerPool.meshChunk`: create the job with the next id, register its
(still pending) promise, insert it into the priority queue, and run the
dispatch loop. -/
def WorkerPool.meshChunk (p : WorkerPool) (priority : Int) : WorkerPool :=
  let job : WPJob := { id := p.nextId, priority := priority }
  dispatch { p with
    nextId := p.nextId + 1
    queue := insertJob job p.queue
    promises := p.promises ++ [(job.id, PromiseState.pending)] }

/-- `worker.onmessage`: resolve the completed job's promise (if its
callbacks are still registered), mark the worker idle, re-dispatch. -/
def onMessage (p : WorkerPool) (wIdx : Nat) : WorkerPool :=
  match p.workers.get? wIdx with
  | none => p
  | some entry =>
    match entry.current with
    | none => p
    | some id =>
      let p :=
        if id ∈ p.pendingResolves then
          { p with
            pendingResolves := p.pendingResolves.erase id
            promises := setPromise p.promises id PromiseState.resolved }
        else p
      dispatch { p with workers := p.workers.set wIdx { busy := false, current := none } }

/-- `worker.onerror`: the source only logs the error, marks the worker
idle, and re-dispatches — it neither rejects nor removes the affected
job's registered callbacks. -/
def onError (p : WorkerPool) (wIdx : Nat) : WorkerPool :=
  match p.workers.get? wIdx with
  | none => p
  | some _ =>
    dispatch { p with workers := p.workers.set wIdx { busy := false, current := none } }

/-- Settlement state of a job's promise. -/
def promiseStateOf (p : WorkerPool) (id : Nat) : Option PromiseState :=
  (p.promises.lookup id)

/-! ## General lemmas -/

/-! ## Fixed example inputs used by the mesher theorems -/

/-- A chunk entirely filled with stone. -/
def gridFullStone : Grid := fun _ => BlockType.Stone

/-- No neighbor chunks present. -/
def noNeighbors : ChunkNeighbors := {}

/-- A chunk entirely filled with water. -/
def gridWater : Grid := fun _ => BlockType.Water

/-- All six neighbor chunks present and entirely water. -/
def waterNeighbors : ChunkNeighbors :=
  { px := some gridWater, nx := some gridWater, py := some gridWater,
    ny := some gridWater, pz := some gridWater, nz := some gridWater }

/-- A stone chunk as a bounds-checked store: reads inside the backing
array see stone, reads past it see 0 (a JS typed array yields `undefined`
out of bounds, which is falsy and not solid). -/
def boundedStone : Grid :=
  fun i => if 0 ≤ i ∧ i < 32768 then BlockType.Stone else 0

/-- Five stone neighbors with the +Y neighbor missing: the configuration
on which the two meshers disagree. -/
def c10Neighbors : ChunkNeighbors :=
  { px := some boundedStone, nx := some boundedStone,
    ny := some boundedStone, pz := some boundedStone, nz := some boundedStone }

/-- Folding a function that fixes `a` over any list returns `a`. -/
theorem foldl_fixed {α β : Type} {f : α → β → α} {a : α} :
    ∀ {l : List β}, (∀ b ∈ l, f a b = a) → l.foldl f a = a
  | [], _ => rfl
  | b :: l, h => by
    have hb : f a b = a := h b (List.mem_cons_self b l)
    simp only [List.foldl_cons, hb]
    exact foldl_fixed (fun b hb2 => h b (List.mem_cons_of_mem _ hb2))

/-- Pointwise-equal step functions fold identically. -/
theorem foldl_congrFn {α β : Type} {f g : α → β → α} :
    ∀ {l : List β} {a : α}, (∀ a2 b, b ∈ l → f a2 b = g a2 b) → l.foldl f a = l.foldl g a
  | [], _, _ => rfl
  | b :: l, a, h => by
    simp only [List.foldl_cons, h a b (List.mem_cons_self b l)]
    exact foldl_congrFn (fun a2 b2 hb2 => h a2 b2 (List.mem_cons_of_mem _ hb2))

/-- One local-coordinate axis of `worldToChunk` is correct: the wrapped
truncating modulo lands in `[0, 32)` and recombines with the floor
quotient. -/
theorem localAxis (w : Int) :
    0 ≤ (w.tmod 32 + 32).tmod 32 ∧ (w.tmod 32 + 32).tmod 32 < 32 ∧
      w = w.fdiv 32 * 32 + (w.tmod 32 + 32).tmod 32 := by
  have h1 : w.tmod 32 + 32 * w.tdiv 32 = w := Int.tmod_add_tdiv w 32
  have h2 : w.tmod 32 < 32 := Int.tmod_lt_of_pos w (by norm_num)
  have h3 : (-w).tmod 32 < 32 := Int.tmod_lt_of_pos (-w) (by norm_num)
  have h4 : (-w).tmod 32 = -(w.tmod 32) := by
    rw [Int.tmod_def, Int.tmod_def, Int.neg_tdiv]; ring
  have h5 : (0 : Int) ≤ w.tmod 32 + 32 := by omega
  have h6 : (w.tmod 32 + 32).tmod 32 = (w.tmod 32 + 32) % 32 :=
    Int.tmod_eq_emod h5 (by norm_num)
  have h7 : w.fdiv 32 = w / 32 := Int.fdiv_eq_ediv w (by norm_num)
  rw [h6, h7]
  omega

/-- C9: for every integer world coordinate, `worldToChunk` returns local
coordinates in `[0, 32)` and chunk coordinates that recombine exactly:
`wx = cx*32 + lx` and likewise for y and z, via floor division and an
always-non-negative modulo. -/
theorem c9_worldToChunk_floor_euclid (wx wy wz : Int) :
    (0 ≤ (worldToChunk wx wy wz).lx ∧ (worldToChunk wx wy wz).lx < 32 ∧
      wx = (worldToChunk wx wy wz).cx * 32 + (worldToChunk wx wy wz).lx) ∧
    (0 ≤ (worldToChunk wx wy wz).ly ∧ (worldToChunk wx wy wz).ly < 32 ∧
      wy = (worldToChunk wx wy wz).cy * 32 + (worldToChunk wx wy wz).ly) ∧
    (0 ≤ (worldToChunk wx wy wz).lz ∧ (worldToChunk wx wy wz).lz < 32 ∧
      wz = (worldToChunk wx wy wz).cz * 32 + (worldToChunk wx wy wz).lz) := by
  simp only [worldToChunk, CHUNK_SIZE, CHUNK_HEIGHT]
  norm_num
  exact ⟨localAxis wx, localAxis wy, localAxis wz⟩

/-- C1: terrain generation is deterministic — two generator instances
constructed independently from the same seed produce identical grids for
the same chunk coordinate.  In this embedding every source of
randomness (the noise functions and the per-block hash) is a pure
function of the seed, mirroring the constructor's derivation of all
noise state from `Alea(seed)`; there is no process-wide mutable
entropy. -/
theorem c1_generateChunk_deterministic (s cx cy cz : Int) (g1 g2 : TerrainGenerator)
    (h1 : g1 = mkTerrainGenerator s) (h2 : g2 = mkTerrainGenerator s) :
    g1.generateChunk cx cy cz = g2.generateChunk cx cy cz := by
  subst h1; subst h2; rfl

theorem c1_witness :
    (mkTerrainGenerator 12345).generateChunk 0 0 0 =
      (mkTerrainGenerator 12345).generateChunk 0 0 0 :=
  c1_generateChunk_deterministic 12345 0 0 0 _ _ rfl rfl

/-- C2: `setBlock` returns `false` and leaves the whole world state (in
particular the `modifiedChunks` map) unchanged whenever `y` is outside
`[0, 256)` or the block type is outside `[0, 15]`; no exception is
involved — the failure is the boolean result. -/
theorem c2_setBlock_rejects (w : WorldManager) (x y z type : Int)
    (h : y < 0 ∨ 256 ≤ y ∨ type < 0 ∨ 15 < type) :
    w.setBlock x y z type = (false, w) := by
  rw [WorldManager.setBlock]
  simp only [WORLD_HEIGHT, BlockType.Flower] at *
  split_ifs with h1 h2
  · rfl
  · rfl
  · exfalso
    push_cast at h1 h2
    omega

theorem c2_witness :
    (mkWorldManager 7).setBlock 3 (-1) 4 1 = (false, mkWorldManager 7) ∧
    (mkWorldManager 7).setBlock 3 256 4 1 = (false, mkWorldManager 7) ∧
    (mkWorldManager 7).setBlock 3 5 4 16 = (false, mkWorldManager 7) :=
  ⟨c2_setBlock_rejects _ 3 (-1) 4 1 (by norm_num),
   c2_setBlock_rejects _ 3 256 4 1 (by norm_num),
   c2_setBlock_rejects _ 3 5 4 16 (by norm_num)⟩

/-- Looking up the key just stored by `mapSet` returns the stored grid. -/
theorem mapGet_mapSet_self (m : List ((Int × Int × Int) × Grid)) (k : Int × Int × Int)
    (g : Grid) : mapGet (mapSet m k g) k = some g := by
  induction m with
  | nil => simp [mapSet, mapGet]
  | cons e rest ih =>
    by_cases h : e.1 = k
    · simp [mapSet, mapGet, h]
    · simp only [mapSet, mapGet, h, if_false]
      exact ih

/-- C3: a successful `setBlock` on a previously-unmodified chunk returns
`true`, stores a copy of the baseline grid with exactly the edited cell
changed, and leaves the generator untouched — a fresh `generateChunk`
call for the same chunk coordinate still returns the original pre-edit
baseline grid. -/
theorem c3_setBlock_copy_on_write (w : WorldManager) (x y z type : Int)
    (hy : 0 ≤ y ∧ y < 256) (ht : 0 ≤ type ∧ type ≤ 15)
    (hnew : mapGet w.modifiedChunks
      ((worldToChunk x y z).cx, (worldToChunk x y z).cy, (worldToChunk x y z).cz) = none) :
    (w.setBlock x y z type).1 = true ∧
    (w.setBlock x y z type).2.terrainGenerator.generateChunk
        (worldToChunk x y z).cx (worldToChunk x y z).cy (worldToChunk x y z).cz =
      w.terrainGenerator.generateChunk
        (worldToChunk x y z).cx (worldToChunk x y z).cy (worldToChunk x y z).cz ∧
    mapGet (w.setBlock x y z type).2.modifiedChunks
        ((worldToChunk x y z).cx, (worldToChunk x y z).cy, (worldToChunk x y z).cz) =
      some (gridSet
        (w.terrainGenerator.generateChunk
          (worldToChunk x y z).cx (worldToChunk x y z).cy (worldToChunk x y z).cz)
        (blockIndex (worldToChunk x y z).lx (worldToChunk x y z).ly (worldToChunk x y z).lz)
        type.toNat) := by
  rw [WorldManager.setBlock]
  simp only [WORLD_HEIGHT, BlockType.Flower]
  rw [if_neg (by push_cast; omega), if_neg (by push_cast; omega)]
  simp only [hnew]
  refine ⟨by trivial, by trivial, ?_⟩
  exact mapGet_mapSet_self _ _ _

theorem c3_witness :
    ((0 : Int) ≤ 2 ∧ (2 : Int) < 256) ∧ ((0 : Int) ≤ 4 ∧ (4 : Int) ≤ 15) ∧
    mapGet (mkWorldManager 9).modifiedChunks
      ((worldToChunk 1 2 3).cx, (worldToChunk 1 2 3).cy, (worldToChunk 1 2 3).cz) = none ∧
    ((mkWorldManager 9).setBlock 1 2 3 4).1 = true :=
  ⟨⟨by norm_num, by norm_num⟩, ⟨by norm_num, by norm_num⟩, rfl,
    (c3_setBlock_copy_on_write (mkWorldManager 9) 1 2 3 4 (by norm_num) (by norm_num) rfl).1⟩

/-- C7 evaluation at the failing input: one worker, one submitted job
(which is dispatched immediately), then a worker `error` event.  The
handler only marks the worker idle and re-dispatches: the job's promise
is still `pending` — never rejected — and its callbacks are still
registered, so the Chunk Manager's `catch` fallback (which runs only on
a rejected promise) is never reached and the chunk never receives a
mesh from this path. -/
theorem c7_worker_error_never_rejects :
    promiseStateOf (onError ((initPool 1).meshChunk 0) 0) 0 = some PromiseState.pending ∧
    (onError ((initPool 1).meshChunk 0) 0).pendingResolves = [0] ∧
    (onError ((initPool 1).meshChunk 0) 0).workers =
      [{ busy := false, current := none }] ∧
    (onError ((initPool 1).meshChunk 0) 0).queue = [] := by
  refine ⟨rfl, rfl, rfl, rfl⟩

/-- C8 counterexample: priorities [5, 1, 9] submitted to a one-worker
pool are NOT processed in the order 9, 5, 1 — the first job is handed to
the idle worker synchronously during its submission, before the others
are queued. -/
theorem c8_counterexample :
    ((onMessage (onMessage (onMessage
        ((((initPool 1).meshChunk 5).meshChunk 1).meshChunk 9) 0) 0) 0).dispatched.map
      Prod.snd) ≠ [9, 5, 1] := by decide

/-- Membership in the insertion-sorted queue. -/
theorem mem_insertJob (a job : WPJob) :
    ∀ (q : List WPJob), a ∈ insertJob job q ↔ a = job ∨ a ∈ q
  | [] => by simp [insertJob]
  | j :: rest => by
    rw [insertJob]
    split_ifs with h
    · simp only [List.mem_cons]
    · simp only [List.mem_cons, mem_insertJob a job rest]
      tauto

/-- C8 amended: the actual processing order for priorities [5, 1, 9] on a
one-worker pool is 5, 9, 1, and insertion keeps the pending queue sorted
by decreasing priority, so among *queued* jobs the highest-priority one
is always dispatched next. -/
theorem c8_amended :
    (((onMessage (onMessage (onMessage
        ((((initPool 1).meshChunk 5).meshChunk 1).meshChunk 9) 0) 0) 0).dispatched.map
      Prod.snd) = [5, 9, 1]) ∧
    ∀ (job : WPJob) (q : List WPJob),
      q.Pairwise (fun a b => b.priority ≤ a.priority) →
      (insertJob job q).Pairwise (fun a b => b.priority ≤ a.priority) := by
  constructor
  · decide
  · intro job q hq
    induction q with
    | nil => simp [insertJob]
    | cons j rest ih =>
      by_cases h : j.priority < job.priority
      · rw [insertJob, if_pos h]
        rcases List.pairwise_cons.mp hq with ⟨hj, hrest⟩
        exact List.pairwise_cons.mpr ⟨by
          intro a ha
          rcases List.mem_cons.mp ha with rfl | ha2
          · omega
          · exact le_trans (hj a ha2) (le_of_lt h), hq⟩
      · rw [insertJob, if_neg h]
        rcases List.pairwise_cons.mp hq with ⟨hj, hrest⟩
        refine List.pairwise_cons.mpr ⟨?_, ih hrest⟩
        intro a ha
        rcases (mem_insertJob a job rest).mp ha with rfl | ha2
        · omega
        · exact hj a ha2

/-- Reading back the four bytes written for an int32 value recovers that
value (for values representable in 32-bit two's complement) and leaves
the remaining stream intact. -/
theorem readInt32_writeInt32 (v : Int) (rest : List Nat)
    (h : -2147483648 ≤ v ∧ v < 2147483648) :
    readInt32 (writeInt32 v ++ rest) = some (v, rest) := by
  simp only [writeInt32, readInt32, List.cons_append, List.nil_append]
  have h0 : (0 : Int) ≤ v % 4294967296 := Int.emod_nonneg v (by norm_num)
  have h1 : v % 4294967296 < 4294967296 := Int.emod_lt_of_pos v (by norm_num)
  have h2 : ((v % 4294967296).toNat : Int) = v % 4294967296 := Int.toNat_of_nonneg h0
  set u := (v % 4294967296).toNat with hu
  have h3 : u % 256 + 256 * (u / 256 % 256) + 65536 * (u / 65536 % 256) +
      16777216 * (u / 16777216 % 256) = u := by omega
  rw [h3]
  have h4 : (u < 2147483648 → (u : Int) = v) ∧
      (¬ u < 2147483648 → (u : Int) - 4294967296 = v) := by
    constructor <;> intro hc <;> omega
  split_ifs with hc
  · simp [h4.1 hc]
  · simp [h4.2 hc]

/-- Indexed reads over the data segment recover exactly the chunk's
bytes. -/
theorem range_map_getD_append :
    ∀ (g rest : List Nat),
      (List.range g.length).map (fun j => (g ++ rest).getD j 0) = g := by
  intro g
  induction g with
  | nil => simp
  | cons a g ih =>
    intro rest
    simp only [List.length_cons, List.range_succ_eq_map, List.map_cons, List.map_map]
    have hcomp : ((fun j => (a :: g ++ rest).getD j 0) ∘ Nat.succ) =
        fun j => (g ++ rest).getD j 0 := by
      funext j
      rfl
    rw [hcomp, ih rest]
    rfl

/-- Reading back `chunks.length` serialised records recovers the records
(32768-byte grids, int32-representable coordinates). -/
theorem readChunkRecords_roundtrip :
    ∀ (chunks : List ((Int × Int × Int) × List Nat)),
      (∀ e ∈ chunks,
        (-2147483648 ≤ e.1.1 ∧ e.1.1 < 2147483648) ∧
        (-2147483648 ≤ e.1.2.1 ∧ e.1.2.1 < 2147483648) ∧
        (-2147483648 ≤ e.1.2.2 ∧ e.1.2.2 < 2147483648) ∧
        e.2.length = BLOCKS_PER_CHUNK) →
      readChunkRecords chunks.length
        ((chunks.map (fun e =>
          writeInt32 e.1.1 ++ (writeInt32 e.1.2.1 ++ (writeInt32 e.1.2.2 ++ e.2)))).flatten) =
        some chunks := by
  intro chunks
  induction chunks with
  | nil => intro _; rfl
  | cons e rest ih =>
    intro h
    rcases h e (List.mem_cons_self e rest) with ⟨hx, hy, hz, hlen⟩
    simp only [List.map_cons, List.flatten_cons, List.length_cons]
    rw [readChunkRecords]
    simp only [List.append_assoc, readInt32_writeInt32 _ _ hx,
      readInt32_writeInt32 _ _ hy, readInt32_writeInt32 _ _ hz]
    have hdata : (List.range BLOCKS_PER_CHUNK).map
        (fun j => (e.2 ++ (rest.map (fun e =>
          writeInt32 e.1.1 ++ (writeInt32 e.1.2.1 ++ (writeInt32 e.1.2.2 ++ e.2)))).flatten).getD j 0) =
        e.2 := by
      rw [← hlen]
      exact range_map_getD_append e.2 _
    have hdrop : List.drop BLOCKS_PER_CHUNK
        (e.2 ++ (rest.map (fun e =>
          writeInt32 e.1.1 ++ (writeInt32 e.1.2.1 ++ (writeInt32 e.1.2.2 ++ e.2)))).flatten) =
        (rest.map (fun e =>
          writeInt32 e.1.1 ++ (writeInt32 e.1.2.1 ++ (writeInt32 e.1.2.2 ++ e.2)))).flatten := by
      rw [← hlen]
      exact List.drop_left _ _
    rw [hdata, hdrop, ih (fun e2 he2 => h e2 (List.mem_cons_of_mem _ he2))]


/-- C4: loading the bytes written by `saveWorld` recovers exactly the
seed and the modified-chunk map — same keys in the same order, byte-for-
byte identical 32768-byte grids — for every seed and chunk set
representable in the int32 on-disk format. -/
theorem c4_save_load_roundtrip (seed : Int)
    (chunks : List ((Int × Int × Int) × List Nat))
    (hseed : -2147483648 ≤ seed ∧ seed < 2147483648)
    (hcount : chunks.length < 2147483648)
    (hch : ∀ e ∈ chunks,
      (-2147483648 ≤ e.1.1 ∧ e.1.1 < 2147483648) ∧
      (-2147483648 ≤ e.1.2.1 ∧ e.1.2.1 < 2147483648) ∧
      (-2147483648 ≤ e.1.2.2 ∧ e.1.2.2 < 2147483648) ∧
      e.2.length = BLOCKS_PER_CHUNK) :
    loadWorld (saveWorld seed chunks) = some (seed, chunks) := by
  rw [saveWorld, loadWorld]
  simp only [List.append_assoc]
  rw [readInt32_writeInt32 _ _ (by norm_num [SAVE_VERSION])]
  simp only []
  rw [if_neg (by norm_num [SAVE_VERSION])]
  rw [readInt32_writeInt32 _ _ hseed]
  simp only []
  rw [readInt32_writeInt32 _ _ (by constructor <;> omega)]
  simp only [Int.toNat_natCast]
  rw [readChunkRecords_roundtrip chunks hch]

theorem c4_witness :
    ((-2147483648 : Int) ≤ 42 ∧ (42 : Int) < 2147483648) ∧
    loadWorld (saveWorld 42 [((1, 2, 3), List.replicate BLOCKS_PER_CHUNK 0)]) =
      some (42, [((1, 2, 3), List.replicate BLOCKS_PER_CHUNK 0)]) :=
  ⟨⟨by norm_num, by norm_num⟩,
    c4_save_load_roundtrip 42 [((1, 2, 3), List.replicate BLOCKS_PER_CHUNK 0)]
      (by norm_num) (by norm_num)
      (by
        intro e he
        simp only [List.mem_singleton] at he
        subst he
        refine ⟨by norm_num, by norm_num, by norm_num, ?_⟩
        simp)⟩

/-! ## Mask and greedy-scan characterisation -/

/-- A row of mask writes leaves untouched cells unchanged. -/
theorem rowFold_get_ne (m0 : Nat → Nat) (val : Nat → Nat) (v uSize i : Nat) :
    ∀ (k : Nat), (∀ u < k, i ≠ u + v * uSize) →
      ((List.range k).foldl (fun m u => arrSet m (u + v * uSize) (val u)) m0) i = m0 i
  | 0, _ => rfl
  | k + 1, h => by
    rw [List.range_succ, List.foldl_append, List.foldl_cons, List.foldl_nil]
    show arrSet _ (k + v * uSize) (val k) i = m0 i
    rw [arrSet, if_neg (h k (Nat.lt_succ_self k))]
    exact rowFold_get_ne m0 val v uSize i k (fun u hu => h u (Nat.lt_succ_of_lt hu))

/-- A row of mask writes stores each cell's value. -/
theorem rowFold_get_hit (m0 : Nat → Nat) (val : Nat → Nat) (v uSize u0 : Nat) :
    ∀ (k : Nat), u0 < k →
      ((List.range k).foldl (fun m u => arrSet m (u + v * uSize) (val u)) m0)
        (u0 + v * uSize) = val u0
  | 0, h => absurd h (Nat.not_lt_zero u0)
  | k + 1, h => by
    rw [List.range_succ, List.foldl_append, List.foldl_cons, List.foldl_nil]
    show arrSet _ (k + v * uSize) (val k) (u0 + v * uSize) = val u0
    by_cases he : u0 = k
    · subst he
      rw [arrSet, if_pos rfl]
    · rw [arrSet, if_neg (by omega)]
      exact rowFold_get_hit m0 val v uSize u0 k (by omega)

/-- Cell indices `u + v * U` with `u < U` determine `u` and `v`. -/
theorem cellIndex_inj {U u u2 v k : Nat} (hu : u < U) (hu2 : u2 < U)
    (h : u + v * U = u2 + k * U) : v = k ∧ u = u2 := by
  have hU : 0 < U := Nat.lt_of_le_of_lt (Nat.zero_le u) hu
  have h1 : (u + v * U) / U = v := by
    rw [Nat.add_mul_div_right _ _ hU, Nat.div_eq_of_lt hu, Nat.zero_add]
  have h2 : (u2 + k * U) / U = k := by
    rw [Nat.add_mul_div_right _ _ hU, Nat.div_eq_of_lt hu2, Nat.zero_add]
  have hv : v = k := by rw [← h1, ← h2, h]
  subst hv
  exact ⟨rfl, by omega⟩

/-- The built mask holds exactly the per-cell mask values. -/
theorem buildMask_get (data : Grid) (neighbors : ChunkNeighbors) (face : FaceDef)
    (d u v : Nat) (hu : u < AXIS_SIZE face.u) (hv : v < AXIS_SIZE face.v) :
    buildMask data neighbors face d (u + v * AXIS_SIZE face.u) =
      maskCellVal data neighbors face d u v := by
  rw [buildMask]
  have main : ∀ (k : Nat), k ≤ AXIS_SIZE face.v →
      ((List.range k).foldl (fun m v2 =>
        (List.range (AXIS_SIZE face.u)).foldl
          (fun m u2 => arrSet m (u2 + v2 * AXIS_SIZE face.u)
            (maskCellVal data neighbors face d u2 v2)) m)
        (fun _ => 0)) (u + v * AXIS_SIZE face.u) =
        (if v < k then maskCellVal data neighbors face d u v else 0) := by
    intro k
    induction k with
    | zero => intro _; simp
    | succ k ih =>
      intro hk
      rw [List.range_succ, List.foldl_append, List.foldl_cons, List.foldl_nil]
      by_cases he : v = k
      · subst he
        rw [rowFold_get_hit _ _ _ _ u (AXIS_SIZE face.u) hu]
        rw [if_pos (Nat.lt_succ_self v)]
      · rw [rowFold_get_ne _ _ _ _ _ (AXIS_SIZE face.u) (by
          intro u2 hu2 hcontra
          exact he (cellIndex_inj hu hu2 hcontra).1)]
        rw [ih (by omega)]
        by_cases hvk : v < k
        · rw [if_pos hvk, if_pos (by omega)]
        · rw [if_neg hvk, if_neg (by omega)]
  have := main (AXIS_SIZE face.v) (le_refl _)
  rw [this, if_pos hv]

/-- The greedy scan skips visited or empty cells. -/
theorem scanCell_skip (aoDepth : Int → Nat → Int) (data : Grid)
    (neighbors : ChunkNeighbors) (face : FaceDef) (d : Nat) (m : Nat → Nat)
    (st : (Nat → Bool) × MeshAcc) (u v : Nat)
    (h : st.1 (u + v * AXIS_SIZE face.u) = true ∨ m (u + v * AXIS_SIZE face.u) = 0) :
    scanCell aoDepth data neighbors face d m st u v = st := by
  rw [scanCell, if_pos h]

/-- A slice whose mask is identically zero contributes nothing. -/
theorem sliceStep_empty (aoDepth : Int → Nat → Int) (data : Grid)
    (neighbors : ChunkNeighbors) (face : FaceDef) (d : Nat) (acc : MeshAcc)
    (h : ∀ u v, u < AXIS_SIZE face.u → v < AXIS_SIZE face.v →
      maskCellVal data neighbors face d u v = 0) :
    sliceStep aoDepth data neighbors face d acc = acc := by
  rw [sliceStep]
  have hfold : (List.range (AXIS_SIZE face.v)).foldl (fun st v =>
      (List.range (AXIS_SIZE face.u)).foldl (fun st u =>
        scanCell aoDepth data neighbors face d (buildMask data neighbors face d) st u v) st)
      ((fun _ => false), acc) = ((fun _ => false), acc) := by
    apply foldl_fixed
    intro v hv
    apply foldl_fixed
    intro u hu
    apply scanCell_skip
    right
    rw [buildMask_get data neighbors face d u v (List.mem_range.mp hu) (List.mem_range.mp hv)]
    exact h u v (List.mem_range.mp hu) (List.mem_range.mp hv)
  rw [hfold]

/-- A saturating counter folded over any list: each step increments while
below the cap. -/
theorem satCounter {c : Nat} : ∀ (l : List Nat) (w0 : Nat), w0 ≤ c →
    l.foldl (fun w _ => if w < c then w + 1 else w) w0 = min (w0 + l.length) c
  | [], w0, h => by simp [Nat.min_eq_left h]
  | b :: l, w0, h => by
    rw [List.foldl_cons]
    by_cases hw : w0 < c
    · rw [if_pos hw, satCounter l (w0 + 1) (by omega)]
      simp only [List.length_cons]
      omega
    · rw [if_neg hw, satCounter l w0 h]
      simp only [List.length_cons]
      omega

/-- Width extension over a uniform unvisited slice reaches the full
width. -/
theorem extendW_uniform (m : Nat → Nat) (vis : Nat → Bool) (c : Nat)
    (uS vS : Nat) (huS : 0 < uS) (hvS : 0 < vS)
    (hmask : ∀ u2 v2, u2 < uS → v2 < vS → m (u2 + v2 * uS) = c)
    (hvis : ∀ i, vis i = false) :
    extendW m vis c 0 0 uS = uS := by
  rw [extendW]
  rw [foldl_congrFn (g := fun w _ => if w < uS then w + 1 else w) (by
    intro w k _
    show (if 0 + w < uS ∧ m (0 + w + 0 * uS) = c ∧ ¬ vis (0 + w + 0 * uS) = true
      then w + 1 else w) = if w < uS then w + 1 else w
    by_cases hw : w < uS
    · rw [if_pos hw, if_pos]
      refine ⟨by omega, ?_, ?_⟩
      · have := hmask w 0 hw hvS
        simpa using this
      · simp [hvis]
    · rw [if_neg hw, if_neg]
      intro hcon
      exact hw (by omega))]
  rw [satCounter _ 1 huS]
  simp only [List.length_range]
  omega

/-- Row matching over a uniform unvisited slice always succeeds. -/
theorem rowMatches_uniform (m : Nat → Nat) (vis : Nat → Bool) (c : Nat)
    (uS vS h w : Nat) (hh : h < vS) (hw : w ≤ uS)
    (hmask : ∀ u2 v2, u2 < uS → v2 < vS → m (u2 + v2 * uS) = c)
    (hvis : ∀ i, vis i = false) :
    rowMatches m vis c 0 0 uS h w = true := by
  rw [rowMatches]
  apply foldl_fixed
  intro k hk
  have hk2 : k < uS := by
    have := List.mem_range.mp hk
    omega
  simp [hvis, hmask k h hk2 hh]

/-- Height extension over a uniform unvisited slice reaches the full
height. -/
theorem extendH_uniform (m : Nat → Nat) (vis : Nat → Bool) (c : Nat)
    (uS vS w : Nat) (hvS : 0 < vS) (hw : w ≤ uS)
    (hmask : ∀ u2 v2, u2 < uS → v2 < vS → m (u2 + v2 * uS) = c)
    (hvis : ∀ i, vis i = false) :
    extendH m vis c 0 0 uS vS w = vS := by
  rw [extendH]
  rw [foldl_congrFn (g := fun h _ => if h < vS then h + 1 else h) (by
    intro h k _
    show (if 0 + h < vS ∧ rowMatches m vis c 0 0 uS h w = true then h + 1 else h) =
      if h < vS then h + 1 else h
    by_cases hh : h < vS
    · rw [if_pos hh, if_pos]
      exact ⟨by omega, rowMatches_uniform m vis c uS vS h w hh hw hmask hvis⟩
    · rw [if_neg hh, if_neg]
      intro hcon
      exact hh (by omega))]
  rw [satCounter _ 1 hvS]
  simp only [List.length_range]
  omega

/-- Visited marking only turns cells on. -/
theorem visRow_mono (u v uSize : Nat) (j : Nat) :
    ∀ (l : List Nat) (vis : Nat → Bool), vis j = true →
      (l.foldl (fun vis du => visSet vis ((u + du) + (v) * uSize)) vis) j = true
  | [], _, h => h
  | b :: l, vis, h => by
    rw [List.foldl_cons]
    apply visRow_mono u v uSize j l
    rw [visSet]
    split_ifs with he
    · rfl
    · exact h

/-- One marking row sets its own cells. -/
theorem visRow_hit (u v uSize du0 : Nat) :
    ∀ (k : Nat) (vis : Nat → Bool), du0 < k →
      ((List.range k).foldl (fun vis du => visSet vis ((u + du) + v * uSize)) vis)
        ((u + du0) + v * uSize) = true
  | 0, _, h => absurd h (Nat.not_lt_zero du0)
  | k + 1, vis, h => by
    rw [List.range_succ, List.foldl_append, List.foldl_cons, List.foldl_nil]
    by_cases he : du0 = k
    · subst he
      rw [visSet, if_pos rfl]
    · have h2 : du0 < k := by omega
      have := visRow_hit u v uSize du0 k vis h2
      rw [visSet]
      split_ifs with hj
      · rfl
      · exact this

/-- Every cell of the marked rectangle ends up visited. -/
theorem markVisited_hit (vis : Nat → Bool) (u v uSize w h du0 dv0 : Nat)
    (hdu : du0 < w) (hdv : dv0 < h) :
    markVisited vis u v uSize w h ((u + du0) + (v + dv0) * uSize) = true := by
  rw [markVisited]
  have main : ∀ (k : Nat) (vis2 : Nat → Bool), dv0 < k →
      ((List.range k).foldl (fun vis dv =>
        (List.range w).foldl (fun vis du => visSet vis ((u + du) + (v + dv) * uSize)) vis)
        vis2) ((u + du0) + (v + dv0) * uSize) = true := by
    intro k
    induction k with
    | zero => intro vis2 h2; exact absurd h2 (Nat.not_lt_zero dv0)
    | succ k ih =>
      intro vis2 h2
      rw [List.range_succ, List.foldl_append, List.foldl_cons, List.foldl_nil]
      by_cases he : dv0 = k
      · subst he
        exact visRow_hit u (v + dv0) uSize du0 w _ hdu
      · apply visRow_mono
        exact ih vis2 (by omega)
  exact main h vis hdv

/-- A slice whose mask is uniformly one non-zero block type merges into a
single full-slice quad. -/
theorem sliceStep_uniform (aoDepth : Int → Nat → Int) (data : Grid)
    (neighbors : ChunkNeighbors) (face : FaceDef) (d : Nat) (acc : MeshAcc) (c : Nat)
    (hc : c ≠ 0) (huS : 0 < AXIS_SIZE face.u) (hvS : 0 < AXIS_SIZE face.v)
    (hmask : ∀ u v, u < AXIS_SIZE face.u → v < AXIS_SIZE face.v →
      maskCellVal data neighbors face d u v = c) :
    sliceStep aoDepth data neighbors face d acc =
      emitQuad aoDepth data neighbors face d 0 0 (AXIS_SIZE face.u) (AXIS_SIZE face.v)
        c acc := by
  have hmg : ∀ u v, u < AXIS_SIZE face.u → v < AXIS_SIZE face.v →
      buildMask data neighbors face d (u + v * AXIS_SIZE face.u) = c := by
    intro u v hu hv
    rw [buildMask_get data neighbors face d u v hu hv]
    exact hmask u v hu hv
  have hvis0 : ∀ i, (fun (_ : Nat) => false) i = false := fun _ => rfl
  have hW : extendW (buildMask data neighbors face d) (fun _ => false) c 0 0
      (AXIS_SIZE face.u) = AXIS_SIZE face.u :=
    extendW_uniform _ _ c _ (AXIS_SIZE face.v) huS hvS hmg hvis0
  have hH : extendH (buildMask data neighbors face d) (fun _ => false) c 0 0
      (AXIS_SIZE face.u) (AXIS_SIZE face.v) (AXIS_SIZE face.u) = AXIS_SIZE face.v :=
    extendH_uniform _ _ c _ _ _ hvS (le_refl _) hmg hvis0
  have hm0 : buildMask data neighbors face d (0 + 0 * AXIS_SIZE face.u) = c := by
    simpa using hmg 0 0 huS hvS
  have hscan0 : scanCell aoDepth data neighbors face d (buildMask data neighbors face d)
      ((fun _ => false), acc) 0 0 =
      (markVisited (fun _ => false) 0 0 (AXIS_SIZE face.u) (AXIS_SIZE face.u)
        (AXIS_SIZE face.v),
       emitQuad aoDepth data neighbors face d 0 0 (AXIS_SIZE face.u) (AXIS_SIZE face.v)
        c acc) := by
    rw [scanCell, if_neg (by
      intro hcon
      rcases hcon with hcon | hcon
      · exact Bool.false_ne_true hcon
      · rw [hm0] at hcon
        exact hc hcon)]
    simp only [hm0, hW, hH]
  set st1 : (Nat → Bool) × MeshAcc :=
    (markVisited (fun _ => false) 0 0 (AXIS_SIZE face.u) (AXIS_SIZE face.u)
      (AXIS_SIZE face.v),
     emitQuad aoDepth data neighbors face d 0 0 (AXIS_SIZE face.u) (AXIS_SIZE face.v)
      c acc) with hst1
  have hvisited : ∀ u2 v2, u2 < AXIS_SIZE face.u → v2 < AXIS_SIZE face.v →
      st1.1 (u2 + v2 * AXIS_SIZE face.u) = true := by
    intro u2 v2 hu2 hv2
    rw [hst1]
    simpa using markVisited_hit (fun _ => false) 0 0 (AXIS_SIZE face.u)
      (AXIS_SIZE face.u) (AXIS_SIZE face.v) u2 v2 hu2 hv2
  have hskip : ∀ (u2 v2 : Nat), u2 < AXIS_SIZE face.u → v2 < AXIS_SIZE face.v →
      scanCell aoDepth data neighbors face d (buildMask data neighbors face d) st1 u2 v2 =
        st1 := by
    intro u2 v2 hu2 hv2
    exact scanCell_skip _ _ _ _ _ _ _ _ _ (Or.inl (hvisited u2 v2 hu2 hv2))
  have hrow0 : (List.range (AXIS_SIZE face.u)).foldl
      (fun st u => scanCell aoDepth data neighbors face d
        (buildMask data neighbors face d) st u 0)
      ((fun _ => false), acc) = st1 := by
    obtain ⟨uS2, huS2⟩ : ∃ k, AXIS_SIZE face.u = k + 1 := ⟨AXIS_SIZE face.u - 1, by omega⟩
    rw [huS2, List.range_succ_eq_map, List.foldl_cons]
    rw [show scanCell aoDepth data neighbors face d (buildMask data neighbors face d)
      ((fun _ => false), acc) 0 0 = st1 from hscan0]
    rw [List.foldl_map]
    apply foldl_fixed
    intro b hb
    exact hskip (b + 1) 0 (by
      have := List.mem_range.mp hb
      omega) (by omega)
  rw [sliceStep]
  have houter : (List.range (AXIS_SIZE face.v)).foldl (fun st v =>
      (List.range (AXIS_SIZE face.u)).foldl (fun st u =>
        scanCell aoDepth data neighbors face d (buildMask data neighbors face d) st u v) st)
      ((fun _ => false), acc) = st1 := by
    obtain ⟨vS2, hvS2⟩ : ∃ k, AXIS_SIZE face.v = k + 1 := ⟨AXIS_SIZE face.v - 1, by omega⟩
    rw [hvS2, List.range_succ_eq_map, List.foldl_cons]
    rw [show (List.range (AXIS_SIZE face.u)).foldl (fun st u =>
      scanCell aoDepth data neighbors face d (buildMask data neighbors face d) st u 0)
      ((fun _ => false), acc) = st1 by rw [← hvS2] at *; exact hrow0]
    rw [List.foldl_map]
    apply foldl_fixed
    intro b hb
    apply foldl_fixed
    intro u2 hu2
    refine hskip u2 (b + 1) (List.mem_range.mp hu2) ?_
    rw [hvS2]
    have := List.mem_range.mp hb
    omega
  rw [houter]

/-- With no neighbors, `getBlock` is the chunk lookup inside the bounds
and air outside. -/
theorem getBlock_noNeighbors (data : Grid) (x y z : Int) :
    getBlock data noNeighbors x y z =
      if 0 ≤ x ∧ x < 32 ∧ 0 ≤ y ∧ y < 32 ∧ 0 ≤ z ∧ z < 32 then data (blockIndex x y z)
      else BlockType.Air := by
  rw [getBlock]
  simp [noNeighbors, CHUNK_SIZE, CHUNK_HEIGHT]


/-- Unfolded mask cell for the +X face. -/
theorem maskCell_PX (data : Grid) (nb : ChunkNeighbors) (d u v : Nat) :
    maskCellVal data nb facePX d u v =
      (if data (blockIndex (d : Int) (v : Int) (u : Int)) = 0 then 0
       else if shouldShowFace (data (blockIndex (d : Int) (v : Int) (u : Int)))
          (getBlock data nb ((d : Int) + 1) (v : Int) (u : Int))
        then data (blockIndex (d : Int) (v : Int) (u : Int)) else 0) := rfl

/-- Unfolded mask cell for the -X face. -/
theorem maskCell_NX (data : Grid) (nb : ChunkNeighbors) (d u v : Nat) :
    maskCellVal data nb faceNX d u v =
      (if data (blockIndex (d : Int) (v : Int) (u : Int)) = 0 then 0
       else if shouldShowFace (data (blockIndex (d : Int) (v : Int) (u : Int)))
          (getBlock data nb ((d : Int) + -1) (v : Int) (u : Int))
        then data (blockIndex (d : Int) (v : Int) (u : Int)) else 0) := rfl

/-- Unfolded mask cell for the +Y face. -/
theorem maskCell_PY (data : Grid) (nb : ChunkNeighbors) (d u v : Nat) :
    maskCellVal data nb facePY d u v =
      (if data (blockIndex (u : Int) (d : Int) (v : Int)) = 0 then 0
       else if shouldShowFace (data (blockIndex (u : Int) (d : Int) (v : Int)))
          (getBlock data nb (u : Int) ((d : Int) + 1) (v : Int))
        then data (blockIndex (u : Int) (d : Int) (v : Int)) else 0) := rfl

/-- Unfolded mask cell for the -Y face. -/
theorem maskCell_NY (data : Grid) (nb : ChunkNeighbors) (d u v : Nat) :
    maskCellVal data nb faceNY d u v =
      (if data (blockIndex (u : Int) (d : Int) (v : Int)) = 0 then 0
       else if shouldShowFace (data (blockIndex (u : Int) (d : Int) (v : Int)))
          (getBlock data nb (u : Int) ((d : Int) + -1) (v : Int))
        then data (blockIndex (u : Int) (d : Int) (v : Int)) else 0) := rfl

/-- Unfolded mask cell for the +Z face. -/
theorem maskCell_PZ (data : Grid) (nb : ChunkNeighbors) (d u v : Nat) :
    maskCellVal data nb facePZ d u v =
      (if data (blockIndex (u : Int) (v : Int) (d : Int)) = 0 then 0
       else if shouldShowFace (data (blockIndex (u : Int) (v : Int) (d : Int)))
          (getBlock data nb (u : Int) (v : Int) ((d : Int) + 1))
        then data (blockIndex (u : Int) (v : Int) (d : Int)) else 0) := rfl

/-- Unfolded mask cell for the -Z face. -/
theorem maskCell_NZ (data : Grid) (nb : ChunkNeighbors) (d u v : Nat) :
    maskCellVal data nb faceNZ d u v =
      (if data (blockIndex (u : Int) (v : Int) (d : Int)) = 0 then 0
       else if shouldShowFace (data (blockIndex (u : Int) (v : Int) (d : Int)))
          (getBlock data nb (u : Int) (v : Int) ((d : Int) + -1))
        then data (blockIndex (u : Int) (v : Int) (d : Int)) else 0) := rfl

/-- Full-stone lookups with no neighbors: stone inside, air outside. -/
theorem getBlock_fullStone_noNb (x y z : Int) :
    getBlock gridFullStone noNeighbors x y z =
      if 0 ≤ x ∧ x < 32 ∧ 0 ≤ y ∧ y < 32 ∧ 0 ≤ z ∧ z < 32 then 3 else 0 := by
  rw [getBlock_noNeighbors]
  split_ifs <;> rfl

/-- Full-stone chunk, no neighbors, +X face: only the boundary slice
`d = 31` is exposed. -/
theorem c5_mask_PX (d u v : Nat) (hd : d < 32) (hu : u < 32) (hv : v < 32) :
    maskCellVal gridFullStone noNeighbors facePX d u v = if d = 31 then 3 else 0 := by
  have hnb : getBlock gridFullStone noNeighbors ((d : Int) + 1) (v : Int) (u : Int) =
      if d = 31 then 0 else 3 := by
    rw [getBlock_fullStone_noNb]
    by_cases hd31 : d = 31
    · rw [if_neg (by omega), if_pos hd31]
    · rw [if_pos (by omega), if_neg hd31]
  rw [maskCell_PX, hnb]
  simp only [gridFullStone]
  by_cases hd31 : d = 31
  · rw [if_pos hd31, if_pos hd31]
    decide
  · rw [if_neg hd31, if_neg hd31]
    decide

/-- A face all of whose slices have empty masks contributes nothing. -/
theorem faceFold_empty (aoDepth : Int → Nat → Int) (data : Grid)
    (neighbors : ChunkNeighbors) (face : FaceDef) (acc : MeshAcc)
    (hempty : ∀ d, d < AXIS_SIZE face.d → ∀ u v, u < AXIS_SIZE face.u →
      v < AXIS_SIZE face.v → maskCellVal data neighbors face d u v = 0) :
    (List.range (AXIS_SIZE face.d)).foldl
      (fun acc d => sliceStep aoDepth data neighbors face d acc) acc = acc := by
  apply foldl_fixed
  intro d hd
  exact sliceStep_empty aoDepth data neighbors face d acc
    (hempty d (List.mem_range.mp hd))

/-- A face whose only non-empty slice is the last one (`d = 31`), where
the mask is uniformly `c`, contributes exactly one full-slice quad. -/
theorem faceFold_boundary_last (aoDepth : Int → Nat → Int) (data : Grid)
    (neighbors : ChunkNeighbors) (face : FaceDef) (acc : MeshAcc) (c : Nat)
    (hc : c ≠ 0) (hd32 : AXIS_SIZE face.d = 32)
    (huS : 0 < AXIS_SIZE face.u) (hvS : 0 < AXIS_SIZE face.v)
    (hempty : ∀ d, d < 31 → ∀ u v, u < AXIS_SIZE face.u →
      v < AXIS_SIZE face.v → maskCellVal data neighbors face d u v = 0)
    (huni : ∀ u v, u < AXIS_SIZE face.u → v < AXIS_SIZE face.v →
      maskCellVal data neighbors face 31 u v = c) :
    (List.range (AXIS_SIZE face.d)).foldl
      (fun acc d => sliceStep aoDepth data neighbors face d acc) acc =
      emitQuad aoDepth data neighbors face 31 0 0 (AXIS_SIZE face.u)
        (AXIS_SIZE face.v) c acc := by
  rw [hd32]
  rw [show (32 : Nat) = 31 + 1 from rfl, List.range_succ, List.foldl_append,
    List.foldl_cons, List.foldl_nil]
  rw [foldl_fixed (fun d hd => sliceStep_empty aoDepth data neighbors face d acc
    (hempty d (List.mem_range.mp hd)))]
  exact sliceStep_uniform aoDepth data neighbors face 31 acc c hc huS hvS huni

/-- A face whose only non-empty slice is the first one (`d = 0`), where
the mask is uniformly `c`, contributes exactly one full-slice quad. -/
theorem faceFold_boundary_first (aoDepth : Int → Nat → Int) (data : Grid)
    (neighbors : ChunkNeighbors) (face : FaceDef) (acc : MeshAcc) (c : Nat)
    (hc : c ≠ 0) (hd32 : AXIS_SIZE face.d = 32)
    (huS : 0 < AXIS_SIZE face.u) (hvS : 0 < AXIS_SIZE face.v)
    (hempty : ∀ d, 0 < d → d < 32 → ∀ u v, u < AXIS_SIZE face.u →
      v < AXIS_SIZE face.v → maskCellVal data neighbors face d u v = 0)
    (huni : ∀ u v, u < AXIS_SIZE face.u → v < AXIS_SIZE face.v →
      maskCellVal data neighbors face 0 u v = c) :
    (List.range (AXIS_SIZE face.d)).foldl
      (fun acc d => sliceStep aoDepth data neighbors face d acc) acc =
      emitQuad aoDepth data neighbors face 0 0 0 (AXIS_SIZE face.u)
        (AXIS_SIZE face.v) c acc := by
  rw [hd32]
  rw [show (32 : Nat) = 31 + 1 from rfl, List.range_succ_eq_map, List.foldl_cons]
  rw [sliceStep_uniform aoDepth data neighbors face 0 acc c hc huS hvS huni]
  rw [List.foldl_map]
  apply foldl_fixed
  intro d hd
  exact sliceStep_empty aoDepth data neighbors face (d + 1) _
    (hempty (d + 1) (Nat.succ_pos d) (by
      have := List.mem_range.mp hd
      omega))

/-- Full-stone chunk, no neighbors, -X face: only `d = 0` is exposed. -/
theorem c5_mask_NX (d u v : Nat) (hd : d < 32) (hu : u < 32) (hv : v < 32) :
    maskCellVal gridFullStone noNeighbors faceNX d u v = if d = 0 then 3 else 0 := by
  have hnb : getBlock gridFullStone noNeighbors ((d : Int) + -1) (v : Int) (u : Int) =
      if d = 0 then 0 else 3 := by
    rw [getBlock_fullStone_noNb]
    by_cases hd0 : d = 0
    · rw [if_neg (by omega), if_pos hd0]
    · rw [if_pos (by omega), if_neg hd0]
  rw [maskCell_NX, hnb]
  simp only [gridFullStone]
  by_cases hd0 : d = 0
  · rw [if_pos hd0, if_pos hd0]
    decide
  · rw [if_neg hd0, if_neg hd0]
    decide

/-- Full-stone chunk, no neighbors, +Y face: only `d = 31` is exposed. -/
theorem c5_mask_PY (d u v : Nat) (hd : d < 32) (hu : u < 32) (hv : v < 32) :
    maskCellVal gridFullStone noNeighbors facePY d u v = if d = 31 then 3 else 0 := by
  have hnb : getBlock gridFullStone noNeighbors (u : Int) ((d : Int) + 1) (v : Int) =
      if d = 31 then 0 else 3 := by
    rw [getBlock_fullStone_noNb]
    by_cases hd31 : d = 31
    · rw [if_neg (by omega), if_pos hd31]
    · rw [if_pos (by omega), if_neg hd31]
  rw [maskCell_PY, hnb]
  simp only [gridFullStone]
  by_cases hd31 : d = 31
  · rw [if_pos hd31, if_pos hd31]
    decide
  · rw [if_neg hd31, if_neg hd31]
    decide

/-- Full-stone chunk, no neighbors, -Y face: only `d = 0` is exposed. -/
theorem c5_mask_NY (d u v : Nat) (hd : d < 32) (hu : u < 32) (hv : v < 32) :
    maskCellVal gridFullStone noNeighbors faceNY d u v = if d = 0 then 3 else 0 := by
  have hnb : getBlock gridFullStone noNeighbors (u : Int) ((d : Int) + -1) (v : Int) =
      if d = 0 then 0 else 3 := by
    rw [getBlock_fullStone_noNb]
    by_cases hd0 : d = 0
    · rw [if_neg (by omega), if_pos hd0]
    · rw [if_pos (by omega), if_neg hd0]
  rw [maskCell_NY, hnb]
  simp only [gridFullStone]
  by_cases hd0 : d = 0
  · rw [if_pos hd0, if_pos hd0]
    decide
  · rw [if_neg hd0, if_neg hd0]
    decide

/-- Full-stone chunk, no neighbors, +Z face: only `d = 31` is exposed. -/
theorem c5_mask_PZ (d u v : Nat) (hd : d < 32) (hu : u < 32) (hv : v < 32) :
    maskCellVal gridFullStone noNeighbors facePZ d u v = if d = 31 then 3 else 0 := by
  have hnb : getBlock gridFullStone noNeighbors (u : Int) (v : Int) ((d : Int) + 1) =
      if d = 31 then 0 else 3 := by
    rw [getBlock_fullStone_noNb]
    by_cases hd31 : d = 31
    · rw [if_neg (by omega), if_pos hd31]
    · rw [if_pos (by omega), if_neg hd31]
  rw [maskCell_PZ, hnb]
  simp only [gridFullStone]
  by_cases hd31 : d = 31
  · rw [if_pos hd31, if_pos hd31]
    decide
  · rw [if_neg hd31, if_neg hd31]
    decide

/-- Full-stone chunk, no neighbors, -Z face: only `d = 0` is exposed. -/
theorem c5_mask_NZ (d u v : Nat) (hd : d < 32) (hu : u < 32) (hv : v < 32) :
    maskCellVal gridFullStone noNeighbors faceNZ d u v = if d = 0 then 3 else 0 := by
  have hnb : getBlock gridFullStone noNeighbors (u : Int) (v : Int) ((d : Int) + -1) =
      if d = 0 then 0 else 3 := by
    rw [getBlock_fullStone_noNb]
    by_cases hd0 : d = 0
    · rw [if_neg (by omega), if_pos hd0]
    · rw [if_pos (by omega), if_neg hd0]
  rw [maskCell_NZ, hnb]
  simp only [gridFullStone]
  by_cases hd0 : d = 0
  · rw [if_pos hd0, if_pos hd0]
    decide
  · rw [if_neg hd0, if_neg hd0]
    decide

/-- If the swept accumulator is known and holds opaque geometry, the
mesher returns its eight buffers. -/
theorem meshCore_some (aoDepth : Int → Nat → Int) (data : Grid)
    (neighbors : ChunkNeighbors) (acc : MeshAcc)
    (h : meshAccOf aoDepth data neighbors = acc) (hvc : acc.vertexCount ≠ 0) :
    meshCore aoDepth data neighbors = some
      { positions := acc.positions, normals := acc.normals, colors := acc.colors,
        indices := acc.indices, waterPositions := acc.waterPositions,
        waterNormals := acc.waterNormals, waterColors := acc.waterColors,
        waterIndices := acc.waterIndices } := by
  unfold meshCore
  simp only []
  rw [h, if_neg (fun hc => hvc hc.1)]

/-- If the swept accumulator is still empty, the mesher returns `null`. -/
theorem meshCore_none (aoDepth : Int → Nat → Int) (data : Grid)
    (neighbors : ChunkNeighbors)
    (h : meshAccOf aoDepth data neighbors = emptyMeshAcc) :
    meshCore aoDepth data neighbors = none := by
  unfold meshCore
  simp only []
  rw [h, if_pos ⟨rfl, rfl⟩]

/-- C5: a chunk filled with stone and no neighbors meshes to exactly six
merged quads (72 position components, 36 indices) and no water
geometry. -/
theorem c5_full_stone_six_quads :
    ∃ md, meshChunk gridFullStone noNeighbors 0 0 0 = some md ∧
      md.positions.length = 72 ∧ md.indices.length = 36 ∧
      md.waterPositions = [] ∧ md.waterIndices = [] := by
  have hePX : ∀ d, d < 31 → ∀ u v, u < AXIS_SIZE facePX.u → v < AXIS_SIZE facePX.v →
      maskCellVal gridFullStone noNeighbors facePX d u v = 0 := by
    intro d hd u v hu hv
    rw [c5_mask_PX d u v (by omega) hu hv, if_neg (by omega)]
  have huPX : ∀ u v, u < AXIS_SIZE facePX.u → v < AXIS_SIZE facePX.v →
      maskCellVal gridFullStone noNeighbors facePX 31 u v = 3 := by
    intro u v hu hv
    rw [c5_mask_PX 31 u v (by omega) hu hv, if_pos rfl]
  have heNX : ∀ d, 0 < d → d < 32 → ∀ u v, u < AXIS_SIZE faceNX.u →
      v < AXIS_SIZE faceNX.v →
      maskCellVal gridFullStone noNeighbors faceNX d u v = 0 := by
    intro d hd0 hd u v hu hv
    rw [c5_mask_NX d u v (by omega) hu hv, if_neg (by omega)]
  have huNX : ∀ u v, u < AXIS_SIZE faceNX.u → v < AXIS_SIZE faceNX.v →
      maskCellVal gridFullStone noNeighbors faceNX 0 u v = 3 := by
    intro u v hu hv
    rw [c5_mask_NX 0 u v (by omega) hu hv, if_pos rfl]
  have hePY : ∀ d, d < 31 → ∀ u v, u < AXIS_SIZE facePY.u → v < AXIS_SIZE facePY.v →
      maskCellVal gridFullStone noNeighbors facePY d u v = 0 := by
    intro d hd u v hu hv
    rw [c5_mask_PY d u v (by omega) hu hv, if_neg (by omega)]
  have huPY : ∀ u v, u < AXIS_SIZE facePY.u → v < AXIS_SIZE facePY.v →
      maskCellVal gridFullStone noNeighbors facePY 31 u v = 3 := by
    intro u v hu hv
    rw [c5_mask_PY 31 u v (by omega) hu hv, if_pos rfl]
  have heNY : ∀ d, 0 < d → d < 32 → ∀ u v, u < AXIS_SIZE faceNY.u →
      v < AXIS_SIZE faceNY.v →
      maskCellVal gridFullStone noNeighbors faceNY d u v = 0 := by
    intro d hd0 hd u v hu hv
    rw [c5_mask_NY d u v (by omega) hu hv, if_neg (by omega)]
  have huNY : ∀ u v, u < AXIS_SIZE faceNY.u → v < AXIS_SIZE faceNY.v →
      maskCellVal gridFullStone noNeighbors faceNY 0 u v = 3 := by
    intro u v hu hv
    rw [c5_mask_NY 0 u v (by omega) hu hv, if_pos rfl]
  have hePZ : ∀ d, d < 31 → ∀ u v, u < AXIS_SIZE facePZ.u → v < AXIS_SIZE facePZ.v →
      maskCellVal gridFullStone noNeighbors facePZ d u v = 0 := by
    intro d hd u v hu hv
    rw [c5_mask_PZ d u v (by omega) hu hv, if_neg (by omega)]
  have huPZ : ∀ u v, u < AXIS_SIZE facePZ.u → v < AXIS_SIZE facePZ.v →
      maskCellVal gridFullStone noNeighbors facePZ 31 u v = 3 := by
    intro u v hu hv
    rw [c5_mask_PZ 31 u v (by omega) hu hv, if_pos rfl]
  have heNZ : ∀ d, 0 < d → d < 32 → ∀ u v, u < AXIS_SIZE faceNZ.u →
      v < AXIS_SIZE faceNZ.v →
      maskCellVal gridFullStone noNeighbors faceNZ d u v = 0 := by
    intro d hd0 hd u v hu hv
    rw [c5_mask_NZ d u v (by omega) hu hv, if_neg (by omega)]
  have huNZ : ∀ u v, u < AXIS_SIZE faceNZ.u → v < AXIS_SIZE faceNZ.v →
      maskCellVal gridFullStone noNeighbors faceNZ 0 u v = 3 := by
    intro u v hu hv
    rw [c5_mask_NZ 0 u v (by omega) hu hv, if_pos rfl]
  have hacc : meshAccOf (fun _ d => (d : Int)) gridFullStone noNeighbors =
      emitQuad (fun _ d => (d : Int)) gridFullStone noNeighbors faceNZ 0 0 0
      (AXIS_SIZE faceNZ.u) (AXIS_SIZE faceNZ.v) 3
      (emitQuad (fun _ d => (d : Int)) gridFullStone noNeighbors facePZ 31 0 0
      (AXIS_SIZE facePZ.u) (AXIS_SIZE facePZ.v) 3
      (emitQuad (fun _ d => (d : Int)) gridFullStone noNeighbors faceNY 0 0 0
      (AXIS_SIZE faceNY.u) (AXIS_SIZE faceNY.v) 3
      (emitQuad (fun _ d => (d : Int)) gridFullStone noNeighbors facePY 31 0 0
      (AXIS_SIZE facePY.u) (AXIS_SIZE facePY.v) 3
      (emitQuad (fun _ d => (d : Int)) gridFullStone noNeighbors faceNX 0 0 0
      (AXIS_SIZE faceNX.u) (AXIS_SIZE faceNX.v) 3
      (emitQuad (fun _ d => (d : Int)) gridFullStone noNeighbors facePX 31 0 0
      (AXIS_SIZE facePX.u) (AXIS_SIZE facePX.v) 3
      (emptyMeshAcc)))))) := by
    unfold meshAccOf FACE_DEFS
    rw [List.foldl_cons, List.foldl_cons, List.foldl_cons, List.foldl_cons,
      List.foldl_cons, List.foldl_cons, List.foldl_nil]
    show (List.range (AXIS_SIZE faceNZ.d)).foldl
      (fun acc d => sliceStep (fun _ d => (d : Int)) gridFullStone noNeighbors faceNZ d acc)
      ((List.range (AXIS_SIZE facePZ.d)).foldl
      (fun acc d => sliceStep (fun _ d => (d : Int)) gridFullStone noNeighbors facePZ d acc)
      ((List.range (AXIS_SIZE faceNY.d)).foldl
      (fun acc d => sliceStep (fun _ d => (d : Int)) gridFullStone noNeighbors faceNY d acc)
      ((List.range (AXIS_SIZE facePY.d)).foldl
      (fun acc d => sliceStep (fun _ d => (d : Int)) gridFullStone noNeighbors facePY d acc)
      ((List.range (AXIS_SIZE faceNX.d)).foldl
      (fun acc d => sliceStep (fun _ d => (d : Int)) gridFullStone noNeighbors faceNX d acc)
      ((List.range (AXIS_SIZE facePX.d)).foldl
      (fun acc d => sliceStep (fun _ d => (d : Int)) gridFullStone noNeighbors facePX d acc)
      (emptyMeshAcc)))))) =
      emitQuad (fun _ d => (d : Int)) gridFullStone noNeighbors faceNZ 0 0 0
      (AXIS_SIZE faceNZ.u) (AXIS_SIZE faceNZ.v) 3
      (emitQuad (fun _ d => (d : Int)) gridFullStone noNeighbors facePZ 31 0 0
      (AXIS_SIZE facePZ.u) (AXIS_SIZE facePZ.v) 3
      (emitQuad (fun _ d => (d : Int)) gridFullStone noNeighbors faceNY 0 0 0
      (AXIS_SIZE faceNY.u) (AXIS_SIZE faceNY.v) 3
      (emitQuad (fun _ d => (d : Int)) gridFullStone noNeighbors facePY 31 0 0
      (AXIS_SIZE facePY.u) (AXIS_SIZE facePY.v) 3
      (emitQuad (fun _ d => (d : Int)) gridFullStone noNeighbors faceNX 0 0 0
      (AXIS_SIZE faceNX.u) (AXIS_SIZE faceNX.v) 3
      (emitQuad (fun _ d => (d : Int)) gridFullStone noNeighbors facePX 31 0 0
      (AXIS_SIZE facePX.u) (AXIS_SIZE facePX.v) 3
      (emptyMeshAcc))))))
    rw [faceFold_boundary_last (fun _ d => (d : Int)) gridFullStone noNeighbors facePX
      emptyMeshAcc 3 (by decide) rfl (by decide) (by decide) hePX huPX]
    rw [faceFold_boundary_first (fun _ d => (d : Int)) gridFullStone noNeighbors faceNX
      _ 3 (by decide) rfl (by decide) (by decide) heNX huNX]
    rw [faceFold_boundary_last (fun _ d => (d : Int)) gridFullStone noNeighbors facePY
      _ 3 (by decide) rfl (by decide) (by decide) hePY huPY]
    rw [faceFold_boundary_first (fun _ d => (d : Int)) gridFullStone noNeighbors faceNY
      _ 3 (by decide) rfl (by decide) (by decide) heNY huNY]
    rw [faceFold_boundary_last (fun _ d => (d : Int)) gridFullStone noNeighbors facePZ
      _ 3 (by decide) rfl (by decide) (by decide) hePZ huPZ]
    rw [faceFold_boundary_first (fun _ d => (d : Int)) gridFullStone noNeighbors faceNZ
      _ 3 (by decide) rfl (by decide) (by decide) heNZ huNZ]
  refine ⟨_, meshCore_some (fun _ d => (d : Int)) gridFullStone noNeighbors _ hacc
    (by decide), by decide, by decide, by decide, by decide⟩


/-- Every block lookup in the all-water configuration returns water,
whether it lands in the chunk or in a neighbor. -/
theorem getBlock_water (x y z : Int) :
    getBlock gridWater waterNeighbors x y z = 5 := by
  unfold getBlock
  split_ifs with h1 h2 h3 h4 h5 h6 h7
  · rfl
  · rfl
  · rfl
  · rfl
  · rfl
  · rfl
  · rfl
  · exfalso
    simp only [waterNeighbors, Option.isSome_some, and_true] at h2 h3 h4 h5 h6 h7 h7
    omega

/-- In the all-water configuration every mask cell is empty: the block is
water and so is its face neighbor, and same-type transparent neighbors
suppress the face. -/
theorem maskCell_water (face : FaceDef) (d u v : Nat) :
    maskCellVal gridWater waterNeighbors face d u v = 0 := by
  unfold maskCellVal
  simp only [gridWater]
  rw [getBlock_water]
  decide


/-- C6: `shouldShowFace` suppresses a same-type transparent neighbor, so
a chunk of water surrounded by water neighbors emits no faces at all. -/
theorem c6_water_suppresses_internal_faces (t : Nat)
    (_ht : blockTransparent t = true) (hne : t ≠ BlockType.Air) :
    shouldShowFace t t = false ∧
      meshChunk gridWater waterNeighbors 0 0 0 = none := by
  have hacc : meshAccOf (fun _ d => (d : Int)) gridWater waterNeighbors =
      emptyMeshAcc := by
    unfold meshAccOf FACE_DEFS
    rw [List.foldl_cons, List.foldl_cons, List.foldl_cons, List.foldl_cons,
      List.foldl_cons, List.foldl_cons, List.foldl_nil]
    show (List.range (AXIS_SIZE faceNZ.d)).foldl
      (fun acc d => sliceStep (fun _ d => (d : Int)) gridWater waterNeighbors faceNZ d acc)
      ((List.range (AXIS_SIZE facePZ.d)).foldl
      (fun acc d => sliceStep (fun _ d => (d : Int)) gridWater waterNeighbors facePZ d acc)
      ((List.range (AXIS_SIZE faceNY.d)).foldl
      (fun acc d => sliceStep (fun _ d => (d : Int)) gridWater waterNeighbors faceNY d acc)
      ((List.range (AXIS_SIZE facePY.d)).foldl
      (fun acc d => sliceStep (fun _ d => (d : Int)) gridWater waterNeighbors facePY d acc)
      ((List.range (AXIS_SIZE faceNX.d)).foldl
      (fun acc d => sliceStep (fun _ d => (d : Int)) gridWater waterNeighbors faceNX d acc)
      ((List.range (AXIS_SIZE facePX.d)).foldl
      (fun acc d => sliceStep (fun _ d => (d : Int)) gridWater waterNeighbors facePX d acc)
      (emptyMeshAcc)))))) = emptyMeshAcc
    rw [faceFold_empty (fun _ d => (d : Int)) gridWater waterNeighbors facePX _
      (fun d _ u v _ _ => maskCell_water facePX d u v)]
    rw [faceFold_empty (fun _ d => (d : Int)) gridWater waterNeighbors faceNX _
      (fun d _ u v _ _ => maskCell_water faceNX d u v)]
    rw [faceFold_empty (fun _ d => (d : Int)) gridWater waterNeighbors facePY _
      (fun d _ u v _ _ => maskCell_water facePY d u v)]
    rw [faceFold_empty (fun _ d => (d : Int)) gridWater waterNeighbors faceNY _
      (fun d _ u v _ _ => maskCell_water faceNY d u v)]
    rw [faceFold_empty (fun _ d => (d : Int)) gridWater waterNeighbors facePZ _
      (fun d _ u v _ _ => maskCell_water facePZ d u v)]
    rw [faceFold_empty (fun _ d => (d : Int)) gridWater waterNeighbors faceNZ _
      (fun d _ u v _ _ => maskCell_water faceNZ d u v)]
  refine ⟨?_, meshCore_none (fun _ d => (d : Int)) gridWater waterNeighbors hacc⟩
  unfold shouldShowFace
  rw [if_neg hne, if_neg (fun hc => hc.2 rfl)]

/-- Witness for C6 at the water block type. -/
theorem c6_witness :
    blockTransparent 5 = true ∧ (5 : Nat) ≠ BlockType.Air ∧
      (shouldShowFace 5 5 = false ∧
        meshChunk gridWater waterNeighbors 0 0 0 = none) :=
  ⟨by decide, by decide, c6_water_suppresses_internal_faces 5 (by decide) (by decide)⟩

/-- In-bounds reads of the bounded stone store return stone. -/
theorem boundedStone_in (x y z : Int) (hx0 : 0 ≤ x) (hx : x < 32)
    (hy0 : 0 ≤ y) (hy : y < 32) (hz0 : 0 ≤ z) (hz : z < 32) :
    boundedStone (blockIndex x y z) = 3 := by
  unfold boundedStone blockIndex CHUNK_SIZE
  rw [if_pos (by push_cast; omega)]
  rfl

/-- Block lookup in the C10 configuration (stone chunk, five stone
neighbors, +Y neighbor missing), with each neighbor branch resolved. -/
theorem getBlock_c10 (x y z : Int) :
    getBlock gridFullStone c10Neighbors x y z =
      if 0 ≤ x ∧ x < 32 ∧ 0 ≤ y ∧ y < 32 ∧ 0 ≤ z ∧ z < 32 then 3
      else if 32 ≤ x then boundedStone (blockIndex (x - 32) y z)
      else if x < 0 then boundedStone (blockIndex (x + 32) y z)
      else if y < 0 then boundedStone (blockIndex x (y + 32) z)
      else if 32 ≤ z then boundedStone (blockIndex x y (z - 32))
      else if z < 0 then boundedStone (blockIndex x y (z + 32))
      else 0 := by
  rw [getBlock]
  simp only [c10Neighbors, CHUNK_SIZE, CHUNK_HEIGHT, Option.isSome_some,
    Option.isSome_none, Option.getD_some, Nat.cast_ofNat, and_true, and_false,
    if_false, Bool.false_eq_true]
  rfl

/-- C10 configuration, +X face: the stone px neighbor hides every face. -/
theorem c10_mask_PX (d u v : Nat) (hd : d < 32) (hu : u < 32) (hv : v < 32) :
    maskCellVal gridFullStone c10Neighbors facePX d u v = 0 := by
  have hnb : getBlock gridFullStone c10Neighbors ((d : Int) + 1) (v : Int) (u : Int) = 3 := by
    rw [getBlock_c10]
    by_cases hd31 : d = 31
    · subst hd31
      rw [if_neg (by omega), if_pos (by omega)]
      exact boundedStone_in _ _ _ (by omega) (by omega) (by omega) (by omega)
        (by omega) (by omega)
    · rw [if_pos (by omega)]
  rw [maskCell_PX, hnb]
  simp only [gridFullStone]
  decide

/-- C10 configuration, -X face: the stone nx neighbor hides every face. -/
theorem c10_mask_NX (d u v : Nat) (hd : d < 32) (hu : u < 32) (hv : v < 32) :
    maskCellVal gridFullStone c10Neighbors faceNX d u v = 0 := by
  have hnb : getBlock gridFullStone c10Neighbors ((d : Int) + -1) (v : Int) (u : Int) = 3 := by
    rw [getBlock_c10]
    by_cases hd0 : d = 0
    · subst hd0
      rw [if_neg (by omega), if_neg (by omega), if_pos (by omega)]
      exact boundedStone_in _ _ _ (by omega) (by omega) (by omega) (by omega)
        (by omega) (by omega)
    · rw [if_pos (by omega)]
  rw [maskCell_NX, hnb]
  simp only [gridFullStone]
  decide

/-- C10 configuration, +Y face: the missing py neighbor reads as air, so
exactly the boundary slice `d = 31` is exposed. -/
theorem c10_mask_PY (d u v : Nat) (hd : d < 32) (hu : u < 32) (hv : v < 32) :
    maskCellVal gridFullStone c10Neighbors facePY d u v = if d = 31 then 3 else 0 := by
  have hnb : getBlock gridFullStone c10Neighbors (u : Int) ((d : Int) + 1) (v : Int) =
      if d = 31 then 0 else 3 := by
    rw [getBlock_c10]
    by_cases hd31 : d = 31
    · subst hd31
      rw [if_neg (by omega), if_neg (by omega), if_neg (by omega), if_neg (by omega),
        if_neg (by omega), if_neg (by omega), if_pos rfl]
    · rw [if_pos (by omega), if_neg hd31]
  rw [maskCell_PY, hnb]
  simp only [gridFullStone]
  by_cases hd31 : d = 31
  · rw [if_pos hd31, if_pos hd31]
    decide
  · rw [if_neg hd31, if_neg hd31]
    decide

/-- C10 configuration, -Y face: the stone ny neighbor hides every face. -/
theorem c10_mask_NY (d u v : Nat) (hd : d < 32) (hu : u < 32) (hv : v < 32) :
    maskCellVal gridFullStone c10Neighbors faceNY d u v = 0 := by
  have hnb : getBlock gridFullStone c10Neighbors (u : Int) ((d : Int) + -1) (v : Int) = 3 := by
    rw [getBlock_c10]
    by_cases hd0 : d = 0
    · subst hd0
      rw [if_neg (by omega), if_neg (by omega), if_neg (by omega), if_pos (by omega)]
      exact boundedStone_in _ _ _ (by omega) (by omega) (by omega) (by omega)
        (by omega) (by omega)
    · rw [if_pos (by omega)]
  rw [maskCell_NY, hnb]
  simp only [gridFullStone]
  decide

/-- C10 configuration, +Z face: the stone pz neighbor hides every face. -/
theorem c10_mask_PZ (d u v : Nat) (hd : d < 32) (hu : u < 32) (hv : v < 32) :
    maskCellVal gridFullStone c10Neighbors facePZ d u v = 0 := by
  have hnb : getBlock gridFullStone c10Neighbors (u : Int) (v : Int) ((d : Int) + 1) = 3 := by
    rw [getBlock_c10]
    by_cases hd31 : d = 31
    · subst hd31
      rw [if_neg (by omega), if_neg (by omega), if_neg (by omega), if_neg (by omega),
        if_pos (by omega)]
      exact boundedStone_in _ _ _ (by omega) (by omega) (by omega) (by omega)
        (by omega) (by omega)
    · rw [if_pos (by omega)]
  rw [maskCell_PZ, hnb]
  simp only [gridFullStone]
  decide

/-- C10 configuration, -Z face: the stone nz neighbor hides every face. -/
theorem c10_mask_NZ (d u v : Nat) (hd : d < 32) (hu : u < 32) (hv : v < 32) :
    maskCellVal gridFullStone c10Neighbors faceNZ d u v = 0 := by
  have hnb : getBlock gridFullStone c10Neighbors (u : Int) (v : Int) ((d : Int) + -1) = 3 := by
    rw [getBlock_c10]
    by_cases hd0 : d = 0
    · subst hd0
      rw [if_neg (by omega), if_neg (by omega), if_neg (by omega), if_neg (by omega),
        if_neg (by omega), if_pos (by omega)]
      exact boundedStone_in _ _ _ (by omega) (by omega) (by omega) (by omega)
        (by omega) (by omega)
    · rw [if_pos (by omega)]
  rw [maskCell_NZ, hnb]
  simp only [gridFullStone]
  decide


/-- C10 counterexample: on a stone chunk with five stone neighbors and
the +Y neighbor missing, the synchronous mesher and the worker mesher
return different meshes (their AO-modulated colors differ, because the
two samplers read AO neighbors from different slices). -/
theorem c10_meshers_differ :
    meshChunk gridFullStone c10Neighbors 0 0 0 ≠
      meshChunkData gridFullStone c10Neighbors := by
  have haccS : meshAccOf (fun _ d => (d : Int)) gridFullStone c10Neighbors =
      emitQuad (fun _ d => (d : Int)) gridFullStone c10Neighbors facePY 31 0 0
      (AXIS_SIZE facePY.u) (AXIS_SIZE facePY.v) 3 emptyMeshAcc := by
    unfold meshAccOf FACE_DEFS
    rw [List.foldl_cons, List.foldl_cons, List.foldl_cons, List.foldl_cons,
      List.foldl_cons, List.foldl_cons, List.foldl_nil]
    show (List.range (AXIS_SIZE faceNZ.d)).foldl
      (fun acc d => sliceStep (fun _ d => (d : Int)) gridFullStone c10Neighbors faceNZ d acc)
      ((List.range (AXIS_SIZE facePZ.d)).foldl
      (fun acc d => sliceStep (fun _ d => (d : Int)) gridFullStone c10Neighbors facePZ d acc)
      ((List.range (AXIS_SIZE faceNY.d)).foldl
      (fun acc d => sliceStep (fun _ d => (d : Int)) gridFullStone c10Neighbors faceNY d acc)
      ((List.range (AXIS_SIZE facePY.d)).foldl
      (fun acc d => sliceStep (fun _ d => (d : Int)) gridFullStone c10Neighbors facePY d acc)
      ((List.range (AXIS_SIZE faceNX.d)).foldl
      (fun acc d => sliceStep (fun _ d => (d : Int)) gridFullStone c10Neighbors faceNX d acc)
      ((List.range (AXIS_SIZE facePX.d)).foldl
      (fun acc d => sliceStep (fun _ d => (d : Int)) gridFullStone c10Neighbors facePX d acc)
      (emptyMeshAcc)))))) =
      emitQuad (fun _ d => (d : Int)) gridFullStone c10Neighbors facePY 31 0 0
      (AXIS_SIZE facePY.u) (AXIS_SIZE facePY.v) 3 emptyMeshAcc
    rw [faceFold_empty (fun _ d => (d : Int)) gridFullStone c10Neighbors facePX _
      (fun d hd u v hu hv => c10_mask_PX d u v hd hu hv)]
    rw [faceFold_empty (fun _ d => (d : Int)) gridFullStone c10Neighbors faceNX _
      (fun d hd u v hu hv => c10_mask_NX d u v hd hu hv)]
    rw [faceFold_boundary_last (fun _ d => (d : Int)) gridFullStone c10Neighbors facePY _ 3
      (by decide) rfl (by decide) (by decide)
      (fun d hd u v hu hv => by
        rw [c10_mask_PY d u v (by omega) hu hv, if_neg (by omega)])
      (fun u v hu hv => by
        rw [c10_mask_PY 31 u v (by omega) hu hv, if_pos rfl])]
    rw [faceFold_empty (fun _ d => (d : Int)) gridFullStone c10Neighbors faceNY _
      (fun d hd u v hu hv => c10_mask_NY d u v hd hu hv)]
    rw [faceFold_empty (fun _ d => (d : Int)) gridFullStone c10Neighbors facePZ _
      (fun d hd u v hu hv => c10_mask_PZ d u v hd hu hv)]
    rw [faceFold_empty (fun _ d => (d : Int)) gridFullStone c10Neighbors faceNZ _
      (fun d hd u v hu hv => c10_mask_NZ d u v hd hu hv)]
  have haccW : meshAccOf (fun sign d => (d : Int) + (if 0 < sign then 0 else -1) + sign) gridFullStone c10Neighbors =
      emitQuad (fun sign d => (d : Int) + (if 0 < sign then 0 else -1) + sign) gridFullStone c10Neighbors facePY 31 0 0
      (AXIS_SIZE facePY.u) (AXIS_SIZE facePY.v) 3 emptyMeshAcc := by
    unfold meshAccOf FACE_DEFS
    rw [List.foldl_cons, List.foldl_cons, List.foldl_cons, List.foldl_cons,
      List.foldl_cons, List.foldl_cons, List.foldl_nil]
    show (List.range (AXIS_SIZE faceNZ.d)).foldl
      (fun acc d => sliceStep (fun sign d => (d : Int) + (if 0 < sign then 0 else -1) + sign) gridFullStone c10Neighbors faceNZ d acc)
      ((List.range (AXIS_SIZE facePZ.d)).foldl
      (fun acc d => sliceStep (fun sign d => (d : Int) + (if 0 < sign then 0 else -1) + sign) gridFullStone c10Neighbors facePZ d acc)
      ((List.range (AXIS_SIZE faceNY.d)).foldl
      (fun acc d => sliceStep (fun sign d => (d : Int) + (if 0 < sign then 0 else -1) + sign) gridFullStone c10Neighbors faceNY d acc)
      ((List.range (AXIS_SIZE facePY.d)).foldl
      (fun acc d => sliceStep (fun sign d => (d : Int) + (if 0 < sign then 0 else -1) + sign) gridFullStone c10Neighbors facePY d acc)
      ((List.range (AXIS_SIZE faceNX.d)).foldl
      (fun acc d => sliceStep (fun sign d => (d : Int) + (if 0 < sign then 0 else -1) + sign) gridFullStone c10Neighbors faceNX d acc)
      ((List.range (AXIS_SIZE facePX.d)).foldl
      (fun acc d => sliceStep (fun sign d => (d : Int) + (if 0 < sign then 0 else -1) + sign) gridFullStone c10Neighbors facePX d acc)
      (emptyMeshAcc)))))) =
      emitQuad (fun sign d => (d : Int) + (if 0 < sign then 0 else -1) + sign) gridFullStone c10Neighbors facePY 31 0 0
      (AXIS_SIZE facePY.u) (AXIS_SIZE facePY.v) 3 emptyMeshAcc
    rw [faceFold_empty (fun sign d => (d : Int) + (if 0 < sign then 0 else -1) + sign) gridFullStone c10Neighbors facePX _
      (fun d hd u v hu hv => c10_mask_PX d u v hd hu hv)]
    rw [faceFold_empty (fun sign d => (d : Int) + (if 0 < sign then 0 else -1) + sign) gridFullStone c10Neighbors faceNX _
      (fun d hd u v hu hv => c10_mask_NX d u v hd hu hv)]
    rw [faceFold_boundary_last (fun sign d => (d : Int) + (if 0 < sign then 0 else -1) + sign) gridFullStone c10Neighbors facePY _ 3
      (by decide) rfl (by decide) (by decide)
      (fun d hd u v hu hv => by
        rw [c10_mask_PY d u v (by omega) hu hv, if_neg (by omega)])
      (fun u v hu hv => by
        rw [c10_mask_PY 31 u v (by omega) hu hv, if_pos rfl])]
    rw [faceFold_empty (fun sign d => (d : Int) + (if 0 < sign then 0 else -1) + sign) gridFullStone c10Neighbors faceNY _
      (fun d hd u v hu hv => c10_mask_NY d u v hd hu hv)]
    rw [faceFold_empty (fun sign d => (d : Int) + (if 0 < sign then 0 else -1) + sign) gridFullStone c10Neighbors facePZ _
      (fun d hd u v hu hv => c10_mask_PZ d u v hd hu hv)]
    rw [faceFold_empty (fun sign d => (d : Int) + (if 0 < sign then 0 else -1) + sign) gridFullStone c10Neighbors faceNZ _
      (fun d hd u v hu hv => c10_mask_NZ d u v hd hu hv)]
  rw [meshChunk, meshCore_some (fun _ d => (d : Int)) gridFullStone c10Neighbors _ haccS
    (by decide)]
  rw [show meshChunkData gridFullStone c10Neighbors =
      meshCore (fun sign d => (d : Int) + (if 0 < sign then 0 else -1) + sign) gridFullStone c10Neighbors from rfl,
    meshCore_some (fun sign d => (d : Int) + (if 0 < sign then 0 else -1) + sign) gridFullStone c10Neighbors _ haccW (by decide)]
  have ha0S : aoCorner (fun _ d => (d : Int)) gridFullStone c10Neighbors facePY 31 0 0 (-1) (-1) = 0 := by
    decide
  have ha1S : aoCorner (fun _ d => (d : Int)) gridFullStone c10Neighbors facePY 31 32 0 0 (-1) = 0 := by
    decide
  have ha2S : aoCorner (fun _ d => (d : Int)) gridFullStone c10Neighbors facePY 31 32 32 0 0 = 3 := by
    decide
  have ha3S : aoCorner (fun _ d => (d : Int)) gridFullStone c10Neighbors facePY 31 0 32 (-1) 0 = 2 := by
    decide
  have ha0W : aoCorner (fun sign d => (d : Int) + (if 0 < sign then 0 else -1) + sign) gridFullStone c10Neighbors facePY 31 0 0 (-1) (-1) = 2 := by
    decide
  have ha1W : aoCorner (fun sign d => (d : Int) + (if 0 < sign then 0 else -1) + sign) gridFullStone c10Neighbors facePY 31 32 0 0 (-1) = 1 := by
    decide
  have ha2W : aoCorner (fun sign d => (d : Int) + (if 0 < sign then 0 else -1) + sign) gridFullStone c10Neighbors facePY 31 32 32 0 0 = 3 := by
    decide
  have ha3W : aoCorner (fun sign d => (d : Int) + (if 0 < sign then 0 else -1) + sign) gridFullStone c10Neighbors facePY 31 0 32 (-1) 0 = 3 := by
    decide
  have hne : (emitQuad (fun _ d => (d : Int)) gridFullStone c10Neighbors facePY 31 0 0
      32 32 3 emptyMeshAcc).colors ≠
      (emitQuad (fun sign d => (d : Int) + (if 0 < sign then 0 else -1) + sign) gridFullStone c10Neighbors facePY 31 0 0
      32 32 3 emptyMeshAcc).colors := by
    simp only [emitQuad]
    rw [if_neg (show ¬((3 : Nat) = BlockType.Water) by decide)]
    simp only [Nat.zero_add]
    rw [ha0S, ha1S, ha2S, ha3S, ha0W, ha1W, ha2W, ha3W]
    norm_num [colorPush, getBlockColor, AO_CURVE, emptyMeshAcc, BLOCK_PROPERTIES,
      BlockType.Water, facePY]
  intro heq
  exact hne (congrArg MeshData.colors (Option.some.inj heq))

/-- When no block the AO sampler can reach is solid, every AO corner is
fully lit, for either sampling depth. -/
theorem aoCorner_all_lit (aoDepth : Int → Nat → Int) (data : Grid)
    (neighbors : ChunkNeighbors)
    (h : ∀ x y z, isSolid (getBlock data neighbors x y z) = false)
    (face : FaceDef) (d cu cv : Nat) (ou ov : Int) :
    aoCorner aoDepth data neighbors face d cu cv ou ov = 3 := by
  unfold aoCorner
  simp only [h]
  decide

/-- With no solid blocks in reach, the emitted quad does not depend on
the AO sampling depth. -/
theorem emitQuad_aoDepth_congr (aoD1 aoD2 : Int → Nat → Int) (data : Grid)
    (neighbors : ChunkNeighbors)
    (h : ∀ x y z, isSolid (getBlock data neighbors x y z) = false)
    (face : FaceDef) (d u v w hgt bt : Nat) (acc : MeshAcc) :
    emitQuad aoD1 data neighbors face d u v w hgt bt acc =
      emitQuad aoD2 data neighbors face d u v w hgt bt acc := by
  unfold emitQuad
  simp only [aoCorner_all_lit aoD1 data neighbors h,
    aoCorner_all_lit aoD2 data neighbors h]

/-- With no solid blocks in reach, one scan step does not depend on the
AO sampling depth. -/
theorem scanCell_aoDepth_congr (aoD1 aoD2 : Int → Nat → Int) (data : Grid)
    (neighbors : ChunkNeighbors)
    (h : ∀ x y z, isSolid (getBlock data neighbors x y z) = false)
    (face : FaceDef) (d : Nat) (m : Nat → Nat) (st : (Nat → Bool) × MeshAcc)
    (u v : Nat) :
    scanCell aoD1 data neighbors face d m st u v =
      scanCell aoD2 data neighbors face d m st u v := by
  unfold scanCell
  simp only [emitQuad_aoDepth_congr aoD1 aoD2 data neighbors h]

/-- With no solid blocks in reach, a slice sweep does not depend on the
AO sampling depth. -/
theorem sliceStep_aoDepth_congr (aoD1 aoD2 : Int → Nat → Int) (data : Grid)
    (neighbors : ChunkNeighbors)
    (h : ∀ x y z, isSolid (getBlock data neighbors x y z) = false)
    (face : FaceDef) (d : Nat) (acc : MeshAcc) :
    sliceStep aoD1 data neighbors face d acc =
      sliceStep aoD2 data neighbors face d acc := by
  unfold sliceStep
  simp only [scanCell_aoDepth_congr aoD1 aoD2 data neighbors h]

/-- With no solid blocks in reach, the whole sweep does not depend on
the AO sampling depth. -/
theorem meshAccOf_aoDepth_congr (aoD1 aoD2 : Int → Nat → Int) (data : Grid)
    (neighbors : ChunkNeighbors)
    (h : ∀ x y z, isSolid (getBlock data neighbors x y z) = false) :
    meshAccOf aoD1 data neighbors = meshAccOf aoD2 data neighbors := by
  unfold meshAccOf
  simp only [sliceStep_aoDepth_congr aoD1 aoD2 data neighbors h]

/-- With no solid blocks in reach, the two meshers agree. -/
theorem meshCore_aoDepth_congr (aoD1 aoD2 : Int → Nat → Int) (data : Grid)
    (neighbors : ChunkNeighbors)
    (h : ∀ x y z, isSolid (getBlock data neighbors x y z) = false) :
    meshCore aoD1 data neighbors = meshCore aoD2 data neighbors := by
  unfold meshCore
  rw [meshAccOf_aoDepth_congr aoD1 aoD2 data neighbors h]

/-- C10 (amended): the two meshers differ only in the slice their AO
sampling reads; whenever no reachable block is solid they agree on every
input. -/
theorem c10_meshers_agree_when_nothing_solid (data : Grid)
    (neighbors : ChunkNeighbors) (cx cy cz : Int)
    (h : ∀ x y z, isSolid (getBlock data neighbors x y z) = false) :
    meshChunk data neighbors cx cy cz = meshChunkData data neighbors :=
  meshCore_aoDepth_congr (fun _ d => (d : Int))
    (fun sign d => (d : Int) + (if 0 < sign then 0 else -1) + sign) data neighbors h

/-- Witness for the amended C10 on an all-air chunk. -/
theorem c10_amended_witness :
    (∀ x y z, isSolid (getBlock (fun _ => 0) noNeighbors x y z) = false) ∧
      meshChunk (fun _ => 0) noNeighbors 0 0 0 =
        meshChunkData (fun _ => 0) noNeighbors := by
  have h : ∀ x y z, isSolid (getBlock (fun _ => 0) noNeighbors x y z) = false := by
    intro x y z
    rw [getBlock_noNeighbors]
    split_ifs <;> rfl
  exact ⟨h, c10_meshers_agree_when_nothing_solid (fun _ => 0) noNeighbors 0 0 0 h⟩
